import Mathlib

/-!
# Azure Kinect polling core: device controller, worker thread and thread registry

A shallow embedding of `AzureKinectDevice.cpp`, `AzureKinectThread.cpp` and the
constant `MaxBodies` of `AzureKinectHelper.h`.

* Pointers are `Option Nat` (an address, `none` for `nullptr`).
* The k4a / k4abt SDK and the engine are not part of the repository: every
  call into them takes its outcome from a record of outcomes passed to the
  embedded function (`NativeCycle`, `NativeInit`, `EngineInit`).
  A call that `throws k4a::error` has the outcome `error` / `none` / `false`.
* `Bodies[i]` with `i` outside the array is the outcome `out_of_range`.
* Every native call of a capture cycle and every evaluation of `Bodies[..]`
  is appended to a trace, so that what a cycle visits can be stated.
* Logging and on-screen messages have no effect on the state and are left out.
-/

namespace AzureKinect

/-! ## AzureKinectHelper.h -/

/-- The max number of bodies that the azure kinect device can track (line 87). -/
def MaxBodies : Nat := 10

/-! ## Native value types -/

/-- A C++ `float` (IEEE-754 binary32) as its sign bit and its 31 remaining bits. -/
structure float where
  sign : Bool
  magnitude : Nat
  deriving DecidableEq, Repr

/-- Unary minus on a `float` flips the sign bit and nothing else. -/
instance : Neg float := ⟨fun f => { f with sign := !f.sign }⟩

/-- The engine vector type, three floats. -/
structure FVector where
  X : float
  Y : float
  Z : float
  deriving DecidableEq, Repr

/-- The `xyz` view of `k4a_float3_t`. -/
structure k4a_float3_t where
  x : float
  y : float
  z : float
  deriving DecidableEq, Repr

/-- The IMU sample of k4atypes.h. -/
structure k4a_imu_sample_t where
  temperature : float
  acc_sample : k4a_float3_t
  acc_timestamp_usec : Nat
  gyro_sample : k4a_float3_t
  gyro_timestamp_usec : Nat
  deriving DecidableEq, Repr

/-- The joint array of one body; its content is never inspected by the controller. -/
structure k4abt_skeleton_t where
  joints : List Nat
  deriving DecidableEq, Repr

/-- A body of k4abttypes.h: id and skeleton. -/
structure k4abt_body_t where
  id : Nat
  skeleton : k4abt_skeleton_t
  deriving DecidableEq, Repr

/-- Modelled from the spec: the class `UAzureKinectBody` is declared in a header that
is not among the sources. The spec's BodySlot is `{trackedFlag, skeletonData,
bodyId}`; these are the two members `CaptureBodyTrackingFrame` writes. Each entry
of `Bodies` points to its own record (`InitializeBodies`), so a slot is its value. -/
structure UAzureKinectBody where
  NativeBody : k4abt_body_t
  bIsTracked : Bool
  deriving DecidableEq, Repr

/-- An open `k4a::device`: its handle and which streams were started on it. -/
structure k4a_device where
  handle : Nat
  cameras_started : Bool
  imu_started : Bool
  deriving DecidableEq, Repr

/-! ## Outcomes of the native calls of one capture cycle -/

/-- Outcome of a blocking k4a call: it returns true with a value, returns false
(timed out), or throws `k4a::error`. -/
inductive Wait (α : Type) where
  | ok (value : α)
  | timed_out
  | error
  deriving Repr

/-- A popped `k4abt::frame`. `get_num_bodies` is the value stored in
`uint32_t numBodies`; for the two reads `none` is a call that throws `k4a::error`. -/
structure k4abt_frame where
  get_num_bodies : Nat
  get_body_skeleton : Nat → Option k4abt_skeleton_t
  get_body_id : Nat → Option Nat

/-- What the SDK answers to the calls of one capture cycle. -/
structure NativeCycle where
  get_capture : Wait Nat
  enqueue_capture : Nat → Wait Unit
  pop_result : Wait k4abt_frame
  get_imu_sample : Wait k4a_imu_sample_t

/-- One entry of the trace of a capture cycle. -/
inductive Event where
  | get_capture
  | enqueue_capture
  | pop_result
  | get_num_bodies
  | get_body_skeleton (i : Nat)
  | get_body_id (i : Nat)
  | get_imu_sample
  | Bodies_index (i : Nat)
  deriving DecidableEq, Repr

/-! ## AzureKinectDevice -/

/-- Modelled from the spec: the class is declared in AzureKinectDevice.h, which is
not among the sources. The members are those the constructor of lines 15-26
initialises and the methods of AzureKinectDevice.cpp read and write. -/
structure AzureKinectDevice where
  NativeKinectDevice : Option k4a_device
  DeviceId : Int
  NativeBodyTracker : Option Nat
  TimeOutInMilliSecs : Int
  Thread : Option Nat
  bIsInitialized : Bool
  bShowAllLogs : Bool
  bShowOnScreenMsgs : Bool
  Bodies : List UAzureKinectBody
  Accelerometer : FVector
  Gyroscope : FVector
  Temperature : float
  TickHandle : Nat
  deriving DecidableEq, Repr

/-- How a block of a capture cycle is left. -/
inductive Exit where
  | fallthrough
  | returned
  | thrown
  | out_of_range
  deriving DecidableEq, Repr

/-- The running state of a capture cycle: the loop index `i`, the device and the trace. -/
structure CycleState where
  exit : Exit
  i : Nat
  dev : AzureKinectDevice
  trace : List Event
  deriving Repr

/-- The statement `Bodies[i]->bIsTracked = v;`: `none` when `i` is out of range. -/
def setTracked (Bodies : List UAzureKinectBody) (i : Nat) (v : Bool) :
    Option (List UAzureKinectBody) :=
  match Bodies[i]? with
  | none => none
  | some b => some (Bodies.set i { b with bIsTracked := v })

/-- The statement `Bodies[i]->NativeBody = body;`: `none` when `i` is out of range. -/
def setNativeBody (Bodies : List UAzureKinectBody) (i : Nat) (body : k4abt_body_t) :
    Option (List UAzureKinectBody) :=
  match Bodies[i]? with
  | none => none
  | some b => some (Bodies.set i { b with NativeBody := body })

/-- Lines 161-184, `for (; i < FMath::Min(numBodies, MaxBodies); i++)`.
The first argument counts the iterations left, `Min(numBodies, MaxBodies) - i`;
the loop body changes neither bound nor `i`. -/
def skeletonLoop (bodyFrame : k4abt_frame) : Nat → CycleState → CycleState
  | 0, st => st
  | left + 1, st =>
    let i := st.i
    -- bodyFrame.get_body_skeleton(i, body.skeleton) inside the inner try
    let tr := st.trace ++ [Event.get_body_skeleton i]
    match bodyFrame.get_body_skeleton i with
    | none =>
      -- catch (k4a::error skeletonError): Bodies[i]->bIsTracked = false; continue;
      match setTracked st.dev.Bodies i false with
      | none => { st with exit := .out_of_range, trace := tr ++ [Event.Bodies_index i] }
      | some bs =>
        skeletonLoop bodyFrame left
          { st with i := i + 1, dev := { st.dev with Bodies := bs },
                    trace := tr ++ [Event.Bodies_index i] }
    | some skeleton =>
      -- body.id = bodyFrame.get_body_id(i);
      let tr := tr ++ [Event.get_body_id i]
      match bodyFrame.get_body_id i with
      | none => { st with exit := .thrown, trace := tr }
      | some id =>
        let body : k4abt_body_t := { id := id, skeleton := skeleton }
        -- Bodies[i]->NativeBody = body;
        match setNativeBody st.dev.Bodies i body with
        | none => { st with exit := .out_of_range, trace := tr ++ [Event.Bodies_index i] }
        | some bs =>
          -- Bodies[i]->bIsTracked = true;
          match setTracked bs i true with
          | none =>
            { st with exit := .out_of_range, dev := { st.dev with Bodies := bs },
                      trace := tr ++ [Event.Bodies_index i, Event.Bodies_index i] }
          | some bs2 =>
            skeletonLoop bodyFrame left
              { st with i := i + 1, dev := { st.dev with Bodies := bs2 },
                        trace := tr ++ [Event.Bodies_index i, Event.Bodies_index i] }

/-- Lines 186-205: the IMU read after the skeleton loop. -/
def readImu (env : NativeCycle) (st : CycleState) : CycleState :=
  let tr := st.trace ++ [Event.get_imu_sample]
  match env.get_imu_sample with
  | .error => { st with exit := .thrown, trace := tr }
  | .timed_out => { st with trace := tr }
  | .ok imu_sample =>
    { st with
      trace := tr
      dev := { st.dev with
        Accelerometer := FVector.mk (-imu_sample.acc_sample.x) (-imu_sample.acc_sample.y)
          (-imu_sample.acc_sample.z)
        Gyroscope := FVector.mk (-imu_sample.gyro_sample.x) (-imu_sample.gyro_sample.y)
          (-imu_sample.gyro_sample.z)
        Temperature := imu_sample.temperature } }

/-- Lines 128-206: `uint32_t i = 0;` and the body of the outer `try`. -/
def tryBlock (env : NativeCycle) (dev : AzureKinectDevice) : CycleState :=
  let st : CycleState := { exit := .fallthrough, i := 0, dev := dev, trace := [Event.get_capture] }
  match env.get_capture with
  | .error => { st with exit := .thrown }
  | .timed_out => { st with exit := .returned }
  | .ok sensorCapture =>
    let st := { st with trace := st.trace ++ [Event.enqueue_capture] }
    match env.enqueue_capture sensorCapture with
    | .error => { st with exit := .thrown }
    | .timed_out => { st with exit := .returned }
    | .ok _ =>
      let st := { st with trace := st.trace ++ [Event.pop_result] }
      match env.pop_result with
      | .error => { st with exit := .thrown }
      | .timed_out => { st with exit := .returned }
      | .ok bodyFrame =>
        let numBodies := bodyFrame.get_num_bodies
        let st := { st with trace := st.trace ++ [Event.get_num_bodies] }
        let st := skeletonLoop bodyFrame (min numBodies MaxBodies - st.i) st
        match st.exit with
        | .fallthrough => readImu env st
        | _ => st

/-- Lines 213-217, `for (uint32 j = i; j < MaxBodies; j++) Bodies[j]->bIsTracked = false;`.
The first argument counts the iterations left, `MaxBodies - j`. -/
def untrackLoop : Nat → Nat → CycleState → CycleState
  | 0, _, st => st
  | left + 1, j, st =>
    let tr := st.trace ++ [Event.Bodies_index j]
    match setTracked st.dev.Bodies j false with
    | none => { st with exit := .out_of_range, trace := tr }
    | some bs => untrackLoop left (j + 1) { st with dev := { st.dev with Bodies := bs }, trace := tr }

/-- Lines 108-218, `AzureKinectDevice::CaptureBodyTrackingFrame`. The result has
`exit = returned` when the function returns to its caller; no `k4a::error`
leaves it, the handler of line 207 falls through to the last loop. -/
def CaptureBodyTrackingFrame (env : NativeCycle) (dev : AzureKinectDevice) : CycleState :=
  if !dev.bIsInitialized then { exit := .returned, i := 0, dev := dev, trace := [] }
  else if dev.NativeKinectDevice.isNone then { exit := .returned, i := 0, dev := dev, trace := [] }
  else if dev.NativeBodyTracker.isNone then { exit := .returned, i := 0, dev := dev, trace := [] }
  else
    let st := tryBlock env dev
    match st.exit with
    | .returned => st
    | .out_of_range => st
    | .fallthrough | .thrown =>
      let st := untrackLoop (MaxBodies - st.i) st.i { st with exit := .fallthrough }
      match st.exit with
      | .out_of_range => st
      | _ => { st with exit := .returned }

/-! ## AzureKinectThread.cpp -/

/-- Modelled from the spec: the class is declared in AzureKinectThread.h, which is
not among the sources. The members are those the constructor of lines 12-16
initialises; `addr` is the address of the object, the value of a pointer to it. -/
structure FAzureKinectThread where
  addr : Nat
  KinectThread : Option Nat
  StopThreadCounter : Int
  KinectDevice : Option Nat
  deriving DecidableEq, Repr

/-- Two's-complement wrap of an `int32`, the value type of `FThreadSafeCounter`. -/
def wrapInt32 (x : Int) : Int := (x + 2 ^ 31) % 2 ^ 32 - 2 ^ 31

/-- Lines 12-22, the constructor, placed at address `addr`; `created` is what
`FRunnableThread::Create` returned (`none` for a null thread, which is only logged). -/
def FAzureKinectThread.ctor (addr : Nat) (created : Option Nat) (Device : Option Nat) :
    FAzureKinectThread :=
  { addr := addr, KinectThread := created, StopThreadCounter := 0, KinectDevice := Device }

/-- Lines 109-112, `FAzureKinectThread::Stop`: `StopThreadCounter.Increment()`. -/
def FAzureKinectThread.Stop (t : FAzureKinectThread) : FAzureKinectThread :=
  { t with StopThreadCounter := wrapInt32 (t.StopThreadCounter + 1) }

/-- Lines 66-74, `FAzureKinectThread::EnsureCompletion`: `Stop()`, then the join
(`WaitForCompletion`, taken to return once `Run` has returned) and
`KinectThread = nullptr`. -/
def FAzureKinectThread.EnsureCompletion (t : FAzureKinectThread) : FAzureKinectThread :=
  let t := t.Stop
  match t.KinectThread with
  | some _ => { t with KinectThread := none }
  | none => t

/-- Lines 33-50, `FAzureKinectThread::InitPolling` on the static array `Instances`.
`alloc` is `operator new`: it is given the addresses of the live worker objects
and answers the address of the new one. Returns the worker pointer and the array. -/
def FAzureKinectThread.InitPolling (alloc : List Nat → Nat) (created : Option Nat)
    (Device : Option Nat) (Instances : List FAzureKinectThread) :
    Nat × List FAzureKinectThread :=
  match Instances.find? (fun Instance => Instance.KinectDevice == Device) with
  | some Instance => (Instance.addr, Instances)
  | none =>
    let Instance := FAzureKinectThread.ctor (alloc (Instances.map (fun I => I.addr))) created Device
    (Instance.addr, Instances ++ [Instance])

/-- Lines 52-64, `FAzureKinectThread::Shutdown` on the static array `Instances`.
`Instances.Remove(Instance)` removes every element equal to the pointer; the
object, completed by `EnsureCompletion`, is then deleted. -/
def FAzureKinectThread.Shutdown (Device : Option Nat) (Instances : List FAzureKinectThread) :
    List FAzureKinectThread :=
  match Instances.find? (fun Instance => Instance.KinectDevice == Device) with
  | some Instance =>
    let Instance := Instance.EnsureCompletion
    Instances.filter (fun Other => Other.addr != Instance.addr)
  | none => Instances

/-! ## The engine ticker -/

/-- The core ticker of the engine, an external collaborator (the spec's TickDriver:
`register(callback, interval) -> handle`, `unregister(handle)`): the registered
delegates, each with its handle and the object it is bound to, and the counter
that numbers the handles. -/
structure FTicker where
  Elements : List (Nat × Nat)
  NextID : Nat
  deriving DecidableEq, Repr

/-- The call `AddTicker(FTickerDelegate::CreateRaw(object, ..), ..)`: registers a
delegate under a handle never given out before and returns the handle. -/
def FTicker.AddTicker (object : Nat) (t : FTicker) : Nat × FTicker :=
  (t.NextID + 1, { Elements := t.Elements ++ [(t.NextID + 1, object)], NextID := t.NextID + 1 })

/-- The call `RemoveTicker(Handle)`: removes the delegates that carry the handle. -/
def FTicker.RemoveTicker (Handle : Nat) (t : FTicker) : FTicker :=
  { t with Elements := t.Elements.filter (fun e => e.1 != Handle) }

/-- The process-wide state next to a controller: the static `Instances` array of
`FAzureKinectThread` and the core ticker. -/
structure World where
  Instances : List FAzureKinectThread
  CoreTicker : FTicker
  deriving DecidableEq, Repr

/-! ## AzureKinectDevice: lifecycle -/

/-- The device configuration built at lines 41-45. -/
structure k4a_device_configuration_t where
  depth_mode : Nat
  color_resolution : Nat
  wired_sync_mode : Nat
  depth_delay_off_color_usec : Int
  deriving DecidableEq, Repr

/-- `K4A_COLOR_RESOLUTION_720P` of k4atypes.h. -/
def K4A_COLOR_RESOLUTION_720P : Nat := 1

/-- What the SDK answers to the calls of `Initialize`; `none` / `false` is a call
that throws `k4a::error`. -/
structure NativeInit where
  device_open : Int → Option Nat
  start_cameras : k4a_device_configuration_t → Bool
  start_imu : Bool
  get_calibration : Nat → Nat → Option Nat
  tracker_create : Nat → Option Nat

/-- What the engine and the runtime answer during `Initialize`: the records made
by `NewObject`, the address `operator new` gives the worker, and what
`FRunnableThread::Create` returns. -/
structure EngineInit where
  NewObject : Nat → UAzureKinectBody
  operator_new : List Nat → Nat
  FRunnableThread_Create : Option Nat

/-- Lines 15-26, the constructor. The three IMU members are not initialised by it;
their starting content is passed in. -/
def AzureKinectDevice.ctor (Id TimeOut : Int) (Accelerometer Gyroscope : FVector)
    (Temperature : float) : AzureKinectDevice :=
  { NativeKinectDevice := none, DeviceId := Id, NativeBodyTracker := none,
    TimeOutInMilliSecs := TimeOut, Thread := none, bIsInitialized := false,
    bShowAllLogs := false, bShowOnScreenMsgs := false, Bodies := [],
    Accelerometer := Accelerometer, Gyroscope := Gyroscope, Temperature := Temperature,
    TickHandle := 0 }

/-- Lines 251-263, `AzureKinectDevice::InitializeBodies`. -/
def InitializeBodies (engine : EngineInit) (dev : AzureKinectDevice) : AzureKinectDevice :=
  { dev with Bodies := (List.range MaxBodies).map engine.NewObject }

/-- Lines 265-268, `AzureKinectDevice::StartKinectThread`; `this` is the address of
the controller. -/
def StartKinectThread (engine : EngineInit) (this : Nat) (dev : AzureKinectDevice) (w : World) :
    AzureKinectDevice × World :=
  let r := FAzureKinectThread.InitPolling engine.operator_new engine.FRunnableThread_Create
    (some this) w.Instances
  ({ dev with Thread := some r.1 }, { w with Instances := r.2 })

/-- The result of `Initialize`: the returned bool, the controller and the world. -/
structure InitResult where
  ret : Bool
  dev : AzureKinectDevice
  world : World
  deriving DecidableEq, Repr

/-- Lines 33-71, `AzureKinectDevice::Initialize`. Every `return false` below is the
handler of line 56, reached from the call that threw. -/
def Initialize (native : NativeInit) (engine : EngineInit) (DepthMode WiredSyncMode : Nat)
    (DepthDelayOffColorUsec : Int) (this : Nat) (dev : AzureKinectDevice) (w : World) :
    InitResult :=
  -- NativeKinectDevice = k4a::device::open(DeviceId);
  match native.device_open dev.DeviceId with
  | none => { ret := false, dev := dev, world := w }
  | some handle =>
    let dev := { dev with NativeKinectDevice := some (k4a_device.mk handle false false) }
    let deviceConfig : k4a_device_configuration_t :=
      { depth_mode := DepthMode, color_resolution := K4A_COLOR_RESOLUTION_720P,
        wired_sync_mode := WiredSyncMode, depth_delay_off_color_usec := DepthDelayOffColorUsec }
    -- NativeKinectDevice.start_cameras(&deviceConfig);
    if !native.start_cameras deviceConfig then { ret := false, dev := dev, world := w }
    else
      let dev := { dev with NativeKinectDevice := some (k4a_device.mk handle true false) }
      -- NativeKinectDevice.start_imu();
      if !native.start_imu then { ret := false, dev := dev, world := w }
      else
        let dev := { dev with NativeKinectDevice := some (k4a_device.mk handle true true) }
        -- sensorCalibration = NativeKinectDevice.get_calibration(..);
        match native.get_calibration deviceConfig.depth_mode deviceConfig.color_resolution with
        | none => { ret := false, dev := dev, world := w }
        | some sensorCalibration =>
          -- NativeBodyTracker = k4abt::tracker::create(sensorCalibration);
          match native.tracker_create sensorCalibration with
          | none => { ret := false, dev := dev, world := w }
          | some tracker =>
            let dev := { dev with NativeBodyTracker := some tracker }
            let dev := { dev with bIsInitialized := true }
            let dev := InitializeBodies engine dev
            let r := StartKinectThread engine this dev w
            let t := r.2.CoreTicker.AddTicker this
            { ret := true, dev := { r.1 with TickHandle := t.1 },
              world := { r.2 with CoreTicker := t.2 } }

/-- Lines 73-106, `AzureKinectDevice::Shutdown`; `this` is the address of the
controller. -/
def Shutdown (this : Nat) (dev : AzureKinectDevice) (w : World) : AzureKinectDevice × World :=
  -- bIsInitialized = false;
  let dev := { dev with bIsInitialized := false }
  -- if (Thread) { Thread->Shutdown(this); Thread = nullptr; }
  let w := match dev.Thread with
    | some _ => { w with Instances := FAzureKinectThread.Shutdown (some this) w.Instances }
    | none => w
  let dev := match dev.Thread with
    | some _ => { dev with Thread := none }
    | none => dev
  -- FTicker::GetCoreTicker().RemoveTicker(TickHandle);
  let w := { w with CoreTicker := w.CoreTicker.RemoveTicker dev.TickHandle }
  -- RemoveFromRoot on every body, then Bodies.Empty();
  let dev := { dev with Bodies := [] }
  -- if (NativeBodyTracker) { shutdown; destroy; NativeBodyTracker = nullptr; }
  let dev := match dev.NativeBodyTracker with
    | some _ => { dev with NativeBodyTracker := none }
    | none => dev
  -- if (NativeKinectDevice) { stop_cameras; close; NativeKinectDevice = nullptr; }
  let dev := match dev.NativeKinectDevice with
    | some _ => { dev with NativeKinectDevice := none }
    | none => dev
  (dev, w)

/-- Line 246, `AzureKinectDevice::IsInitialized`. -/
def IsInitialized (dev : AzureKinectDevice) : Bool := dev.bIsInitialized

/-! ## The worker loop -/

/-- One turn of the worker loop as the worker sees it: the native outcomes of the
capture cycle it runs, and how many `Stop()` calls other threads complete before
the loop condition is read again. -/
structure Turn where
  env : NativeCycle
  stops : Nat

/-- What `Run` has done: `code` is its return value (`none` while the loop is
still going when the listed turns are used up, or after an out-of-range access),
`cycles` counts the calls of `CaptureBodyTrackingFrame`, `observed` lists the
counter value read by the loop condition before each of these calls. -/
structure RunResult where
  code : Option Nat
  cycles : Nat
  observed : List Int
  thread : FAzureKinectThread
  dev : AzureKinectDevice
  deriving DecidableEq, Repr

/-- Lines 93-104, `while (StopThreadCounter.GetValue() == 0)`, over the listed turns. -/
def runLoop : List Turn → RunResult → RunResult
  | [], r => if r.thread.StopThreadCounter == 0 then r else { r with code := some 0 }
  | turn :: rest, r =>
    if r.thread.StopThreadCounter == 0 then
      -- KinectDevice->CaptureBodyTrackingFrame();
      let st := CaptureBodyTrackingFrame turn.env r.dev
      let r := { r with cycles := r.cycles + 1, observed := r.observed ++ [r.thread.StopThreadCounter],
                        dev := st.dev }
      match st.exit with
      | .out_of_range => r
      | _ => runLoop rest { r with thread := FAzureKinectThread.Stop^[turn.stops] r.thread }
    else { r with code := some 0 }

/-- Lines 82-107, `FAzureKinectThread::Run`; `dev` is the controller that
`KinectDevice` points to when it is not null. -/
def FAzureKinectThread.Run (t : FAzureKinectThread) (dev : AzureKinectDevice)
    (turns : List Turn) : RunResult :=
  match t.KinectDevice with
  | none => { code := some 1, cycles := 0, observed := [], thread := t, dev := dev }
  | some _ => runLoop turns { code := none, cycles := 0, observed := [], thread := t, dev := dev }

/-! ## Vocabulary of the statements -/

/-- The controller passes the three guards of lines 110-126 and has its
`MaxBodies` slots: the state a successful `Initialize` leaves. -/
def Ready (dev : AzureKinectDevice) : Prop :=
  dev.bIsInitialized = true ∧ dev.NativeKinectDevice.isSome = true ∧
    dev.NativeBodyTracker.isSome = true ∧ dev.Bodies.length = MaxBodies

/-- Acquire, enqueue and pop all succeed in the cycle, and pop yields `bodyFrame`. -/
def Pops (env : NativeCycle) (bodyFrame : k4abt_frame) : Prop :=
  ∃ sensorCapture, env.get_capture = .ok sensorCapture ∧
    env.enqueue_capture sensorCapture = .ok () ∧ env.pop_result = .ok bodyFrame

/-- One of the three blocking stages returns false: the calls before it succeed. -/
def TimesOut (env : NativeCycle) : Prop :=
  env.get_capture = .timed_out ∨
  (∃ sensorCapture, env.get_capture = .ok sensorCapture ∧
    env.enqueue_capture sensorCapture = .timed_out) ∨
  (∃ sensorCapture, env.get_capture = .ok sensorCapture ∧
    env.enqueue_capture sensorCapture = .ok () ∧ env.pop_result = .timed_out)

/-- One of the three blocking stages throws `k4a::error`: the calls before it succeed. -/
def RaisesBeforeFrame (env : NativeCycle) : Prop :=
  env.get_capture = .error ∨
  (∃ sensorCapture, env.get_capture = .ok sensorCapture ∧
    env.enqueue_capture sensorCapture = .error) ∨
  (∃ sensorCapture, env.get_capture = .ok sensorCapture ∧
    env.enqueue_capture sensorCapture = .ok () ∧ env.pop_result = .error)

/-- The body-id read of index `i` is the first call on the frame that throws out of
the skeleton loop: the skeleton of `i` is read, its id is not, and every index
below `i` either fails its skeleton read (handled in the loop) or has an id. -/
def IdReadRaisesAt (bodyFrame : k4abt_frame) (i : Nat) : Prop :=
  i < min bodyFrame.get_num_bodies MaxBodies ∧
  (bodyFrame.get_body_skeleton i).isSome = true ∧ bodyFrame.get_body_id i = none ∧
  ∀ k, k < i → bodyFrame.get_body_skeleton k = none ∨ (bodyFrame.get_body_id k).isSome = true

/-- Every body-id read the skeleton loop makes succeeds: below the clamp, an index
whose skeleton is read has an id. -/
def IdReadsSucceed (bodyFrame : k4abt_frame) : Prop :=
  ∀ k, k < min bodyFrame.get_num_bodies MaxBodies →
    bodyFrame.get_body_skeleton k = none ∨ (bodyFrame.get_body_id k).isSome = true

/-- Every skeleton extraction and every body-id read below the clamp succeeds. -/
def ReadsSucceed (bodyFrame : k4abt_frame) : Prop :=
  ∀ k, k < min bodyFrame.get_num_bodies MaxBodies →
    (bodyFrame.get_body_skeleton k).isSome = true ∧ (bodyFrame.get_body_id k).isSome = true

/-- The slot content with the tracked flag cleared. -/
def untracked (b : UAzureKinectBody) : UAzureKinectBody := { b with bIsTracked := false }

/-- What one passed iteration of the skeleton loop leaves in slot `k` that held `old`. -/
def slotAfter (bodyFrame : k4abt_frame) (k : Nat) (old : UAzureKinectBody) : UAzureKinectBody :=
  match bodyFrame.get_body_skeleton k with
  | none => untracked old
  | some skeleton =>
    match bodyFrame.get_body_id k with
    | none => old
    | some id => { NativeBody := { id := id, skeleton := skeleton }, bIsTracked := true }

/-- What is known of the state `r` in which the skeleton loop, entered in `st` with
`left` iterations to go and all of them in range, is left. -/
structure SkeletonLoopPost (bodyFrame : k4abt_frame) (left : Nat) (st r : CycleState) : Prop where
  exit_eq : r.exit = .fallthrough ∨ r.exit = .thrown
  length_eq : r.dev.Bodies.length = st.dev.Bodies.length
  i_ge : st.i ≤ r.i
  i_done : r.exit = .fallthrough → r.i = st.i + left
  i_thrown : r.exit = .thrown →
    r.i < st.i + left ∧ (bodyFrame.get_body_skeleton r.i).isSome = true ∧
      bodyFrame.get_body_id r.i = none
  passed : ∀ k, st.i ≤ k → k < r.i →
    bodyFrame.get_body_skeleton k = none ∨ (bodyFrame.get_body_id k).isSome = true
  slots : ∀ k, r.dev.Bodies[k]? =
    if st.i ≤ k ∧ k < r.i then (st.dev.Bodies[k]?).map (slotAfter bodyFrame k) else st.dev.Bodies[k]?
  dev_eq : r.dev = { st.dev with Bodies := r.dev.Bodies }
  trace_index : ∀ j, Event.Bodies_index j ∈ r.trace →
    Event.Bodies_index j ∈ st.trace ∨ (st.i ≤ j ∧ j < st.i + left)
  trace_imu : Event.get_imu_sample ∈ r.trace → Event.get_imu_sample ∈ st.trace
  trace_mono : ∀ e, e ∈ st.trace → e ∈ r.trace
  trace_visit : ∀ k, st.i ≤ k → k < r.i → Event.get_body_skeleton k ∈ r.trace

/-- One passed iteration of the skeleton loop, from `st` to `st1`. -/
structure SkeletonStep (bodyFrame : k4abt_frame) (st st1 : CycleState) : Prop where
  exit_eq : st1.exit = .fallthrough
  i_eq : st1.i = st.i + 1
  length_eq : st1.dev.Bodies.length = st.dev.Bodies.length
  passed : bodyFrame.get_body_skeleton st.i = none ∨ (bodyFrame.get_body_id st.i).isSome = true
  slots : ∀ k, st1.dev.Bodies[k]? =
    if k = st.i then (st.dev.Bodies[k]?).map (slotAfter bodyFrame k) else st.dev.Bodies[k]?
  dev_eq : st1.dev = { st.dev with Bodies := st1.dev.Bodies }
  trace_index : ∀ j, Event.Bodies_index j ∈ st1.trace → Event.Bodies_index j ∈ st.trace ∨ j = st.i
  trace_imu : Event.get_imu_sample ∈ st1.trace → Event.get_imu_sample ∈ st.trace
  trace_mono : ∀ e, e ∈ st.trace → e ∈ st1.trace
  trace_visit : Event.get_body_skeleton st.i ∈ st1.trace

/-- What is known of the state `r` in which the last loop, entered in `st` at `j`
with `left` iterations to go and all of them in range, is left. -/
structure UntrackLoopPost (left j : Nat) (st r : CycleState) : Prop where
  exit_eq : r.exit = st.exit
  i_eq : r.i = st.i
  length_eq : r.dev.Bodies.length = st.dev.Bodies.length
  slots : ∀ k, r.dev.Bodies[k]? =
    if j ≤ k ∧ k < j + left then (st.dev.Bodies[k]?).map untracked else st.dev.Bodies[k]?
  dev_eq : r.dev = { st.dev with Bodies := r.dev.Bodies }
  trace_new : ∀ e, e ∈ r.trace →
    e ∈ st.trace ∨ ∃ k, e = Event.Bodies_index k ∧ j ≤ k ∧ k < j + left
  trace_mono : ∀ e, e ∈ st.trace → e ∈ r.trace

/-- The state in which the `try` block of a cycle on `dev` enters the skeleton loop. -/
def loopEntry (dev : AzureKinectDevice) : CycleState :=
  { exit := .fallthrough, i := 0, dev := dev,
    trace := [Event.get_capture, Event.enqueue_capture, Event.pop_result, Event.get_num_bodies] }

/-- The controller `dev` with the IMU snapshot that lines 186-205 leave. -/
def imuAfter (env : NativeCycle) (dev : AzureKinectDevice) : AzureKinectDevice :=
  (readImu env { exit := .fallthrough, i := 0, dev := dev, trace := [] }).dev

/-- What is known of the state `r` in which a cycle that popped `bodyFrame` on a
ready controller `dev` is left; `r.i` is the loop index at which the `try` block
was left. -/
structure CapturePost (env : NativeCycle) (bodyFrame : k4abt_frame) (dev : AzureKinectDevice)
    (r : CycleState) : Prop where
  exit_eq : r.exit = .returned
  i_le : r.i ≤ min bodyFrame.get_num_bodies MaxBodies
  length_eq : r.dev.Bodies.length = dev.Bodies.length
  passed : ∀ k, k < r.i →
    bodyFrame.get_body_skeleton k = none ∨ (bodyFrame.get_body_id k).isSome = true
  stopped : r.i < min bodyFrame.get_num_bodies MaxBodies →
    (bodyFrame.get_body_skeleton r.i).isSome = true ∧ bodyFrame.get_body_id r.i = none
  slots : ∀ k, r.dev.Bodies[k]? =
    if k < r.i then (dev.Bodies[k]?).map (slotAfter bodyFrame k) else (dev.Bodies[k]?).map untracked
  dev_done : r.i = min bodyFrame.get_num_bodies MaxBodies →
    r.dev = { imuAfter env dev with Bodies := r.dev.Bodies } ∧ Event.get_imu_sample ∈ r.trace
  dev_stopped : r.i < min bodyFrame.get_num_bodies MaxBodies →
    r.dev = { dev with Bodies := r.dev.Bodies } ∧ Event.get_imu_sample ∉ r.trace
  trace_index : ∀ j, Event.Bodies_index j ∈ r.trace → j < MaxBodies
  trace_visit : ∀ k, k < r.i → Event.get_body_skeleton k ∈ r.trace

/-- A run of capture cycles, one after the other, on one controller. -/
def runCycles : List NativeCycle → AzureKinectDevice → AzureKinectDevice
  | [], dev => dev
  | env :: rest, dev => runCycles rest (CaptureBodyTrackingFrame env dev).dev

/-- The slots match the guards: a controller that passes the guards of lines
110-126 has `MaxBodies` slots. -/
def SlotsMatch (dev : AzureKinectDevice) : Prop :=
  dev.bIsInitialized = true → dev.NativeKinectDevice.isSome = true →
    dev.NativeBodyTracker.isSome = true → dev.Bodies.length = MaxBodies

/-- A call on the thread registry: `GetOrCreate` is `InitPolling` (with what
`FRunnableThread::Create` returns in it), `Remove` is `FAzureKinectThread::Shutdown`. -/
inductive RegistryCall where
  | GetOrCreate (created : Option Nat) (Device : Option Nat)
  | Remove (Device : Option Nat)
  deriving DecidableEq, Repr

/-- The registry after one call. -/
def RegistryCall.apply (alloc : List Nat → Nat) :
    RegistryCall → List FAzureKinectThread → List FAzureKinectThread
  | .GetOrCreate created Device, Instances =>
    (FAzureKinectThread.InitPolling alloc created Device Instances).2
  | .Remove Device, Instances => FAzureKinectThread.Shutdown Device Instances

/-- The registry reached from the empty one by the listed calls, in order. -/
def registryAfter (alloc : List Nat → Nat) (calls : List RegistryCall) : List FAzureKinectThread :=
  calls.foldl (fun Instances call => call.apply alloc Instances) []

/-- At most one entry of the registry per device identity. -/
def OneWorkerPerDevice (Instances : List FAzureKinectThread) : Prop :=
  ∀ Device : Option Nat,
    (Instances.filter (fun Instance => Instance.KinectDevice == Device)).length ≤ 1

/-- The registry holds no worker for the controller at address `this`. -/
def NoWorkerFor (this : Nat) (Instances : List FAzureKinectThread) : Prop :=
  ∀ Instance, Instance ∈ Instances → Instance.KinectDevice ≠ some this

/-- The ticker holds no delegate bound to the controller at address `this`. -/
def NoTickerFor (this : Nat) (t : FTicker) : Prop :=
  ∀ e, e ∈ t.Elements → e.2 ≠ this

/-- What holds of the controller at address `this` and the world in every state of
its life (constructed, initialized, capturing, shut down): the registry has at most
one worker per device, it has one for this controller only while `Thread` is set,
and an initialized controller is ready. -/
structure Lifecycle (this : Nat) (dev : AzureKinectDevice) (w : World) : Prop where
  one_worker : OneWorkerPerDevice w.Instances
  worker_known : dev.Thread = none → NoWorkerFor this w.Instances
  ready_if_initialized : dev.bIsInitialized = true → Ready dev

/-- The configuration `Initialize` builds from its arguments. -/
def deviceConfigOf (DepthMode WiredSyncMode : Nat) (DepthDelayOffColorUsec : Int) :
    k4a_device_configuration_t :=
  { depth_mode := DepthMode, color_resolution := K4A_COLOR_RESOLUTION_720P,
    wired_sync_mode := WiredSyncMode, depth_delay_off_color_usec := DepthDelayOffColorUsec }

/-- A step after the open of the native sequence of `Initialize` throws: start
cameras, start IMU, get calibration or create tracker, the steps before it
succeeding. -/
def LaterStepFails (native : NativeInit) (DepthMode WiredSyncMode : Nat)
    (DepthDelayOffColorUsec : Int) : Prop :=
  native.start_cameras (deviceConfigOf DepthMode WiredSyncMode DepthDelayOffColorUsec) = false ∨
  native.start_imu = false ∨
  native.get_calibration DepthMode K4A_COLOR_RESOLUTION_720P = none ∨
  ∃ calibration, native.get_calibration DepthMode K4A_COLOR_RESOLUTION_720P = some calibration ∧
    native.tracker_create calibration = none

/-- Some step of the native sequence of `Initialize` throws: the open, or a later
step after a successful open. -/
def NativeSequenceFails (native : NativeInit) (DepthMode WiredSyncMode : Nat)
    (DepthDelayOffColorUsec : Int) (DeviceId : Int) : Prop :=
  native.device_open DeviceId = none ∨
  ((native.device_open DeviceId).isSome = true ∧
    LaterStepFails native DepthMode WiredSyncMode DepthDelayOffColorUsec)

/-- A controller with nothing held: not initialized, both native handles null, no
worker, no slots. The constructor and `Shutdown` leave it so. -/
def Released (dev : AzureKinectDevice) : Prop :=
  dev.bIsInitialized = false ∧ dev.NativeKinectDevice = none ∧ dev.NativeBodyTracker = none ∧
    dev.Thread = none ∧ dev.Bodies = []

/-- Every listed turn passes without a `Stop()` call. -/
def Quiet (turns : List Turn) : Prop := ∀ turn, turn ∈ turns → turn.stops = 0

/-! ## Concrete inputs -/

/-- An SDK on which every call of `Initialize` succeeds. -/
def nativeOk : NativeInit :=
  { device_open := fun _ => some 1, start_cameras := fun _ => true, start_imu := true,
    get_calibration := fun _ _ => some 3, tracker_create := fun _ => some 2 }

/-- An allocator that answers the address after the highest live one. -/
def nextAddress (live : List Nat) : Nat := live.foldl max 0 + 1

/-- An untracked body record with id 0 and no joints. -/
def emptyBody : UAzureKinectBody := ⟨⟨0, ⟨[]⟩⟩, false⟩

/-- A body record that holds body 7 as tracked. -/
def staleBody : UAzureKinectBody := ⟨⟨7, ⟨[7]⟩⟩, true⟩

/-- An engine that makes untracked empty body records and creates the OS thread. -/
def engineOk : EngineInit :=
  { NewObject := fun _ => emptyBody, operator_new := nextAddress,
    FRunnableThread_Create := some 9 }

/-- No worker registered and no ticker delegate. -/
def emptyWorld : World := { Instances := [], CoreTicker := { Elements := [], NextID := 0 } }

/-- The float with all bits clear. -/
def zeroFloat : float := { sign := false, magnitude := 0 }

/-- A controller as the constructor leaves it: device id 0, timeout 1000 ms. -/
def freshDevice : AzureKinectDevice :=
  AzureKinectDevice.ctor 0 1000 (FVector.mk zeroFloat zeroFloat zeroFloat)
    (FVector.mk zeroFloat zeroFloat zeroFloat) zeroFloat

/-- The controller at address 500 after a successful `Initialize`. -/
def startedDevice : AzureKinectDevice :=
  (Initialize nativeOk engineOk 1 0 0 500 freshDevice emptyWorld).dev

/-- A started controller whose ten slots all hold body 7 as tracked. -/
def crowdedDevice : AzureKinectDevice :=
  { startedDevice with Bodies := List.replicate 10 staleBody }

/-- A frame of `n` bodies, each read without error: body `i` has id `100 + i`. -/
def sampleFrame (n : Nat) : k4abt_frame :=
  { get_num_bodies := n, get_body_skeleton := fun i => some ⟨[i]⟩,
    get_body_id := fun i => some (100 + i) }

/-- A frame of three bodies whose skeleton of index 1 fails to extract. -/
def partialFrame : k4abt_frame :=
  { get_num_bodies := 3,
    get_body_skeleton := fun i => if i = 1 then none else some ⟨[i]⟩,
    get_body_id := fun i => some (100 + i) }

/-- A frame of four bodies whose body-id read of index 2 throws. -/
def brokenFrame : k4abt_frame :=
  { get_num_bodies := 4, get_body_skeleton := fun i => some ⟨[i]⟩,
    get_body_id := fun i => if i = 2 then none else some (100 + i) }

/-- An IMU sample. -/
def sampleImu : k4a_imu_sample_t :=
  { temperature := ⟨false, 25⟩, acc_sample := ⟨⟨false, 1⟩, ⟨true, 2⟩, ⟨false, 3⟩⟩,
    acc_timestamp_usec := 10, gyro_sample := ⟨⟨true, 4⟩, ⟨false, 5⟩, ⟨true, 6⟩⟩,
    gyro_timestamp_usec := 10 }

/-- A cycle in which every blocking call succeeds and pops `bodyFrame`. -/
def cycleWith (bodyFrame : k4abt_frame) (imu : Wait k4a_imu_sample_t) : NativeCycle :=
  { get_capture := .ok 5, enqueue_capture := fun _ => .ok (), pop_result := .ok bodyFrame,
    get_imu_sample := imu }

/-- A cycle whose enqueue times out. -/
def enqueueTimeout : NativeCycle :=
  { get_capture := .ok 5, enqueue_capture := fun _ => .timed_out, pop_result := .error,
    get_imu_sample := .ok sampleImu }

/-- A cycle whose enqueue throws. -/
def enqueueError : NativeCycle :=
  { get_capture := .ok 5, enqueue_capture := fun _ => .error, pop_result := .timed_out,
    get_imu_sample := .ok sampleImu }

/-- An SDK on which the device opens and the cameras start but `start_imu` throws. -/
def nativeImuFails : NativeInit :=
  { device_open := fun _ => some 1, start_cameras := fun _ => true, start_imu := false,
    get_calibration := fun _ _ => some 3, tracker_create := fun _ => some 2 }

/-- An SDK on which the open itself throws. -/
def nativeOpenFails : NativeInit :=
  { device_open := fun _ => none, start_cameras := fun _ => true, start_imu := true,
    get_calibration := fun _ _ => some 3, tracker_create := fun _ => some 2 }

/-- The world after the controller at address 500 was initialized. -/
def startedWorld : World :=
  (Initialize nativeOk engineOk 1 0 0 500 freshDevice emptyWorld).world

/-- A worker for the controller at address 500, as its constructor leaves it. -/
def sampleWorker : FAzureKinectThread := FAzureKinectThread.ctor 1 (some 9) (some 500)

/-- A worker constructed with a null device pointer. -/
def orphanWorker : FAzureKinectThread := FAzureKinectThread.ctor 2 (some 9) none

/-- A turn of the worker loop that pops three bodies, with `stops` calls of `Stop()`
landing during it. -/
def turnWith (stops : Nat) : Turn :=
  { env := cycleWith (sampleFrame 3) (.ok sampleImu), stops := stops }

/-! ## Theorems -/

/-! ### The two loops of a capture cycle -/

theorem setTracked_in_range {Bodies : List UAzureKinectBody} {i : Nat} (v : Bool)
    (h : i < Bodies.length) :
    setTracked Bodies i v = some (Bodies.set i ⟨Bodies[i].NativeBody, v⟩) := by
  simp [setTracked, List.getElem?_eq_getElem h]

theorem setNativeBody_in_range {Bodies : List UAzureKinectBody} {i : Nat} (body : k4abt_body_t)
    (h : i < Bodies.length) :
    setNativeBody Bodies i body = some (Bodies.set i ⟨body, Bodies[i].bIsTracked⟩) := by
  simp [setNativeBody, List.getElem?_eq_getElem h]

theorem getElem?_set_slot (Bodies : List UAzureKinectBody) (i k : Nat) (b : UAzureKinectBody)
    (h : i < Bodies.length) :
    (Bodies.set i b)[k]? = if k = i then some b else Bodies[k]? := by
  by_cases hk : k = i
  · subst hk; simp [h]
  · have : i ≠ k := fun e => hk e.symm
    simp [hk, this, List.getElem?_set_ne]

theorem SkeletonLoopPost.of_step {bodyFrame : k4abt_frame} {left : Nat} {st st1 r : CycleState}
    (s : SkeletonStep bodyFrame st st1) (p : SkeletonLoopPost bodyFrame left st1 r) :
    SkeletonLoopPost bodyFrame (left + 1) st r := by
  have hi := s.i_eq
  have hge := p.i_ge
  refine ⟨p.exit_eq, p.length_eq.trans s.length_eq, by omega, ?_, ?_, ?_, ?_, ?_, ?_, ?_, ?_, ?_⟩
  · intro h; have := p.i_done h; omega
  · intro h; have := p.i_thrown h; exact ⟨by omega, this.2⟩
  · intro k h1 h2
    by_cases hk : k = st.i
    · subst hk; exact s.passed
    · exact p.passed k (by omega) h2
  · intro k
    rw [p.slots k, s.slots k, hi]
    by_cases hk : k = st.i
    · subst hk
      rw [if_neg (by omega), if_pos rfl, if_pos (by omega)]
    · by_cases hk2 : st.i + 1 ≤ k ∧ k < r.i
      · rw [if_pos hk2, if_neg hk, if_pos (by omega)]
      · rw [if_neg hk2, if_neg hk, if_neg (by omega)]
  · rw [p.dev_eq, s.dev_eq]
  · intro j hj
    rcases p.trace_index j hj with h | h
    · rcases s.trace_index j h with h | h
      · exact Or.inl h
      · exact Or.inr (by omega)
    · exact Or.inr (by omega)
  · intro h; exact s.trace_imu (p.trace_imu h)
  · intro e he; exact p.trace_mono e (s.trace_mono e he)
  · intro k h1 h2
    by_cases hk : k = st.i
    · subst hk; exact p.trace_mono _ s.trace_visit
    · exact p.trace_visit k (by omega) h2

theorem skeletonLoop_post (bodyFrame : k4abt_frame) :
    ∀ (left : Nat) (st : CycleState), st.exit = .fallthrough →
      st.i + left ≤ st.dev.Bodies.length →
      SkeletonLoopPost bodyFrame left st (skeletonLoop bodyFrame left st) := by
  intro left
  induction left with
  | zero =>
    intro st hexit _
    refine ⟨Or.inl hexit, rfl, le_refl _, fun _ => rfl, ?_, ?_, ?_, rfl, ?_, id, fun _ h => h, ?_⟩
    · intro h; simp [skeletonLoop, hexit] at h
    · intro k h1 h2; simp [skeletonLoop] at h2; omega
    · intro k
      have : ¬ (st.i ≤ k ∧ k < st.i) := by omega
      simp [skeletonLoop, this]
    · intro j h; exact Or.inl h
    · intro k h1 h2; simp [skeletonLoop] at h2; omega
  | succ left ih =>
    intro st hexit hlen
    have hi : st.i < st.dev.Bodies.length := by omega
    cases hsk : bodyFrame.get_body_skeleton st.i with
    | none =>
      rw [skeletonLoop]; simp only [hsk, setTracked_in_range false hi]
      refine SkeletonLoopPost.of_step ?_ (ih _ hexit (by simp; omega))
      refine ⟨hexit, rfl, by simp, Or.inl hsk, ?_, rfl, ?_, ?_, ?_, ?_⟩
      · intro k
        simp only [getElem?_set_slot _ _ _ _ hi]
        by_cases hk : k = st.i
        · subst hk; simp [slotAfter, untracked, hsk, List.getElem?_eq_getElem hi]
        · simp [hk]
      · intro j hj; simp at hj; rcases hj with h | h
        · exact Or.inl h
        · exact Or.inr h
      · intro h; simpa using h
      · intro e he; simp [he]
      · simp
    | some skeleton =>
      cases hid : bodyFrame.get_body_id st.i with
      | none =>
        rw [skeletonLoop]; simp only [hsk, hid]
        refine ⟨Or.inr rfl, rfl, le_refl _, ?_, ?_, ?_, ?_, rfl, ?_, ?_, ?_, ?_⟩
        · intro h; simp at h
        · intro _; exact ⟨by simp, by simp [hsk], hid⟩
        · intro k h1 h2; simp at h2; omega
        · intro k
          have : ¬ (st.i ≤ k ∧ k < st.i) := by omega
          simp [this]
        · intro j hj; simp at hj; exact Or.inl hj
        · intro h; simpa using h
        · intro e he; simp [he]
        · intro k h1 h2; simp at h2; omega
      | some id =>
        have hi2 : st.i < (st.dev.Bodies.set st.i
            ⟨{ id := id, skeleton := skeleton }, st.dev.Bodies[st.i].bIsTracked⟩).length := by
          simpa using hi
        rw [skeletonLoop]
        simp only [hsk, hid, setNativeBody_in_range _ hi, setTracked_in_range true hi2]
        refine SkeletonLoopPost.of_step ?_ (ih _ hexit (by simp; omega))
        refine ⟨hexit, rfl, by simp, Or.inr (by simp [hid]), ?_, rfl, ?_, ?_, ?_, ?_⟩
        · intro k
          simp only [getElem?_set_slot _ _ _ _ hi2, getElem?_set_slot _ _ _ _ hi]
          by_cases hk : k = st.i
          · subst hk; simp [slotAfter, hsk, hid, List.getElem?_eq_getElem hi]
          · simp [hk]
        · intro j hj; simp at hj; rcases hj with h | h
          · exact Or.inl h
          · exact Or.inr h
        · intro h; simpa using h
        · intro e he; simp [he]
        · simp


theorem untrackLoop_post :
    ∀ (left j : Nat) (st : CycleState), j + left ≤ st.dev.Bodies.length →
      UntrackLoopPost left j st (untrackLoop left j st) := by
  intro left
  induction left with
  | zero =>
    intro j st _
    refine ⟨rfl, rfl, rfl, ?_, rfl, fun _ h => Or.inl h, fun _ h => h⟩
    intro k
    rw [untrackLoop, if_neg (by omega)]
  | succ left ih =>
    intro j st hlen
    have hj : j < st.dev.Bodies.length := by omega
    rw [untrackLoop]; simp only [setTracked_in_range false hj]
    have p := ih (j + 1)
      { st with dev := { st.dev with Bodies := st.dev.Bodies.set j ⟨st.dev.Bodies[j].NativeBody, false⟩ },
                trace := st.trace ++ [Event.Bodies_index j] } (by simp; omega)
    refine ⟨p.exit_eq, p.i_eq, by simpa using p.length_eq, ?_, ?_, ?_, ?_⟩
    · intro k
      rw [p.slots k]
      simp only [getElem?_set_slot _ _ _ _ hj]
      by_cases hk : k = j
      · subst hk
        rw [if_neg (by omega), if_pos rfl, if_pos (by omega)]
        simp [untracked, List.getElem?_eq_getElem hj]
      · by_cases hk2 : j + 1 ≤ k ∧ k < j + 1 + left
        · rw [if_pos hk2, if_neg hk, if_pos (by omega)]
        · rw [if_neg hk2, if_neg hk, if_neg (by omega)]
    · rw [p.dev_eq]
    · intro e he
      rcases p.trace_new e he with h | ⟨k, hk, h1, h2⟩
      · simp at h
        rcases h with h | h
        · exact Or.inl h
        · exact Or.inr ⟨j, h, by omega, by omega⟩
      · exact Or.inr ⟨k, hk, by omega, by omega⟩
    · intro e he; exact p.trace_mono e (by simp [he])

/-! ### The `try` block and the last loop -/

theorem readImu_i (env : NativeCycle) (st : CycleState) : (readImu env st).i = st.i := by
  unfold readImu; cases env.get_imu_sample <;> rfl

theorem readImu_trace (env : NativeCycle) (st : CycleState) :
    (readImu env st).trace = st.trace ++ [Event.get_imu_sample] := by
  unfold readImu; cases env.get_imu_sample <;> rfl

theorem readImu_exit (env : NativeCycle) (st : CycleState) :
    (readImu env st).exit = st.exit ∨ (readImu env st).exit = .thrown := by
  unfold readImu; cases env.get_imu_sample <;> simp

theorem readImu_dev (env : NativeCycle) (st : CycleState) :
    (readImu env st).dev = imuAfter env st.dev := by
  unfold imuAfter readImu; cases env.get_imu_sample <;> rfl

theorem imuAfter_Bodies (env : NativeCycle) (dev : AzureKinectDevice) :
    (imuAfter env dev).Bodies = dev.Bodies := by
  unfold imuAfter readImu; cases env.get_imu_sample <;> rfl

theorem imuAfter_with_Bodies (env : NativeCycle) (dev : AzureKinectDevice)
    (bs : List UAzureKinectBody) :
    imuAfter env { dev with Bodies := bs } = { imuAfter env dev with Bodies := bs } := by
  unfold imuAfter readImu; cases env.get_imu_sample <;> rfl

theorem tryBlock_pops_done {env : NativeCycle} {bodyFrame : k4abt_frame} (dev : AzureKinectDevice)
    (h : Pops env bodyFrame)
    (hL : (skeletonLoop bodyFrame (min bodyFrame.get_num_bodies MaxBodies) (loopEntry dev)).exit
      = .fallthrough) :
    tryBlock env dev =
      readImu env (skeletonLoop bodyFrame (min bodyFrame.get_num_bodies MaxBodies) (loopEntry dev)) := by
  obtain ⟨cap, h1, h2, h3⟩ := h
  simp only [loopEntry] at hL
  simp only [tryBlock, h1, h2, h3, loopEntry, List.cons_append, List.nil_append, Nat.sub_zero, hL]

theorem tryBlock_pops_thrown {env : NativeCycle} {bodyFrame : k4abt_frame} (dev : AzureKinectDevice)
    (h : Pops env bodyFrame)
    (hL : (skeletonLoop bodyFrame (min bodyFrame.get_num_bodies MaxBodies) (loopEntry dev)).exit
      = .thrown) :
    tryBlock env dev =
      skeletonLoop bodyFrame (min bodyFrame.get_num_bodies MaxBodies) (loopEntry dev) := by
  obtain ⟨cap, h1, h2, h3⟩ := h
  simp only [loopEntry] at hL
  simp only [tryBlock, h1, h2, h3, loopEntry, List.cons_append, List.nil_append, Nat.sub_zero, hL]

/-- The last loop after a `try` block left by falling through or by a throw. -/
theorem capture_of_tryBlock {dev : AzureKinectDevice} (env : NativeCycle) (h : Ready dev)
    (hexit : (tryBlock env dev).exit = .fallthrough ∨ (tryBlock env dev).exit = .thrown)
    (hi : (tryBlock env dev).i ≤ MaxBodies)
    (hlen : (tryBlock env dev).dev.Bodies.length = MaxBodies) :
    ∃ u, UntrackLoopPost (MaxBodies - (tryBlock env dev).i) (tryBlock env dev).i
        { tryBlock env dev with exit := .fallthrough } u ∧
      CaptureBodyTrackingFrame env dev = { u with exit := .returned } := by
  have U := untrackLoop_post (MaxBodies - (tryBlock env dev).i) (tryBlock env dev).i
    { tryBlock env dev with exit := .fallthrough } (by simp only [hlen]; omega)
  refine ⟨_, U, ?_⟩
  have hU := U.exit_eq
  obtain ⟨h1, h2, h3, _⟩ := h
  have h2' : dev.NativeKinectDevice.isNone = false := by
    cases hd : dev.NativeKinectDevice <;> simp_all
  have h3' : dev.NativeBodyTracker.isNone = false := by
    cases hd : dev.NativeBodyTracker <;> simp_all
  simp only [CaptureBodyTrackingFrame, h1, h2', h3', Bool.not_true, Bool.false_eq_true, if_false]
  rcases hexit with he | he
  · simp only [he]
    split
    · rename_i hx; rw [hU] at hx; cases hx
    · rfl
  · simp only [he]
    split
    · rename_i hx; rw [hU] at hx; cases hx
    · rfl

/-! ### A cycle that pops a frame -/

theorem min_le_MaxBodies (n : Nat) : min n MaxBodies ≤ MaxBodies := Nat.min_le_right _ _

/-- The cycle after a `try` block `T` that left the skeleton loop in state `L`. -/
theorem capture_post_of_loop {env : NativeCycle} {bodyFrame : k4abt_frame}
    {dev : AzureKinectDevice} (hr : Ready dev) {L : CycleState}
    (P : SkeletonLoopPost bodyFrame (min bodyFrame.get_num_bodies MaxBodies) (loopEntry dev) L)
    (hTexit : (tryBlock env dev).exit = .fallthrough ∨ (tryBlock env dev).exit = .thrown)
    (hTi : (tryBlock env dev).i = L.i)
    (hTB : (tryBlock env dev).dev.Bodies = L.dev.Bodies)
    (hdone : L.exit = .fallthrough →
      (tryBlock env dev).dev = imuAfter env L.dev ∧ Event.get_imu_sample ∈ (tryBlock env dev).trace)
    (hthrown : L.exit = .thrown →
      (tryBlock env dev).dev = L.dev ∧ (tryBlock env dev).trace = L.trace)
    (hsub : ∀ j, Event.Bodies_index j ∈ (tryBlock env dev).trace → Event.Bodies_index j ∈ L.trace)
    (hmono : ∀ e, e ∈ L.trace → e ∈ (tryBlock env dev).trace) :
    CapturePost env bodyFrame dev (CaptureBodyTrackingFrame env dev) := by
  have hlen : dev.Bodies.length = MaxBodies := hr.2.2.2
  have hLlen : L.dev.Bodies.length = MaxBodies := by rw [P.length_eq]; exact hlen
  have hmin := min_le_MaxBodies bodyFrame.get_num_bodies
  have hLi : L.i ≤ min bodyFrame.get_num_bodies MaxBodies := by
    rcases P.exit_eq with h | h
    · have := P.i_done h; simp [loopEntry] at this; omega
    · have := (P.i_thrown h).1; simp [loopEntry] at this; omega
  obtain ⟨u, U, hc⟩ := capture_of_tryBlock env hr hTexit (by rw [hTi]; omega) (by rw [hTB]; exact hLlen)
  have hUi : u.i = L.i := by rw [U.i_eq]; exact hTi
  have hUB : ∀ k, u.dev.Bodies[k]? =
      if L.i ≤ k ∧ k < MaxBodies then (L.dev.Bodies[k]?).map untracked else L.dev.Bodies[k]? := by
    intro k
    have := U.slots k
    simp only [hTB, hTi] at this
    rw [this]
    have e : L.i + (MaxBodies - L.i) = MaxBodies := by omega
    rw [e]
  rw [hc]
  refine ⟨rfl, by simpa [hUi] using hLi, ?_, ?_, ?_, ?_, ?_, ?_, ?_, ?_⟩
  · show u.dev.Bodies.length = dev.Bodies.length
    rw [U.length_eq]; show (tryBlock env dev).dev.Bodies.length = _; rw [hTB, hLlen, hlen]
  · intro k hk
    exact P.passed k (by simp [loopEntry]) (by simpa [hUi] using hk)
  · intro hk
    have hk' : L.i < min bodyFrame.get_num_bodies MaxBodies := by simpa [hUi] using hk
    rcases P.exit_eq with h | h
    · have := P.i_done h; simp [loopEntry] at this; omega
    · have := (P.i_thrown h).2; simpa [hUi] using this
  · intro k
    show u.dev.Bodies[k]? = if k < u.i then _ else _
    rw [hUB k, P.slots k, hUi]
    simp only [loopEntry, Nat.zero_le, true_and]
    by_cases hk : k < L.i
    · rw [if_neg (by omega), if_pos hk, if_pos hk]
    · rw [if_neg hk, if_neg hk]
      by_cases hk2 : k < MaxBodies
      · rw [if_pos ⟨by omega, hk2⟩]
      · rw [if_neg (by omega)]
        have : dev.Bodies[k]? = none := by
          rw [List.getElem?_eq_none_iff]; omega
        rw [this]; rfl
  · intro hk
    have hk' : L.i = min bodyFrame.get_num_bodies MaxBodies := by simpa [hUi] using hk
    have hL : L.exit = .fallthrough := by
      rcases P.exit_eq with h | h
      · exact h
      · have := (P.i_thrown h).1; simp [loopEntry] at this; omega
    obtain ⟨hd, htr⟩ := hdone hL
    constructor
    · show u.dev = _
      rw [U.dev_eq]
      show ({ (tryBlock env dev).dev with Bodies := u.dev.Bodies } : AzureKinectDevice) = _
      rw [hd, P.dev_eq]
      simp only [loopEntry, imuAfter_with_Bodies]
    · exact U.trace_mono _ htr
  · intro hk
    have hk' : L.i < min bodyFrame.get_num_bodies MaxBodies := by simpa [hUi] using hk
    have hL : L.exit = .thrown := by
      rcases P.exit_eq with h | h
      · have := P.i_done h; simp [loopEntry] at this; omega
      · exact h
    obtain ⟨hd, htr⟩ := hthrown hL
    constructor
    · show u.dev = _
      rw [U.dev_eq]
      show ({ (tryBlock env dev).dev with Bodies := u.dev.Bodies } : AzureKinectDevice) = _
      rw [hd, P.dev_eq]
      simp only [loopEntry]
    · intro hmem
      rcases U.trace_new _ hmem with h | ⟨k, h, _⟩
      · have h' : Event.get_imu_sample ∈ L.trace := by
          have : Event.get_imu_sample ∈ (tryBlock env dev).trace := h
          rwa [htr] at this
        have := P.trace_imu h'
        simp [loopEntry] at this
      · cases h
  · intro j hj
    rcases U.trace_new _ hj with h | ⟨k, h, h1, h2⟩
    · rcases P.trace_index j (hsub j h) with h | h
      · simp [loopEntry] at h
      · simp [loopEntry] at h; omega
    · cases h; rw [hTi] at h2; omega
  · intro k hk
    exact U.trace_mono _ (hmono _ (P.trace_visit k (by simp [loopEntry]) (by simpa [hUi] using hk)))

theorem capture_post {env : NativeCycle} {bodyFrame : k4abt_frame} {dev : AzureKinectDevice}
    (hr : Ready dev) (hp : Pops env bodyFrame) :
    CapturePost env bodyFrame dev (CaptureBodyTrackingFrame env dev) := by
  have hlen : dev.Bodies.length = MaxBodies := hr.2.2.2
  have P := skeletonLoop_post bodyFrame (min bodyFrame.get_num_bodies MaxBodies) (loopEntry dev) rfl
    (by simp only [loopEntry, hlen, Nat.zero_add]; exact min_le_MaxBodies _)
  rcases P.exit_eq with hL | hL
  · have hT := tryBlock_pops_done dev hp hL
    refine capture_post_of_loop hr P ?_ ?_ ?_ ?_ ?_ ?_ ?_
    · rw [hT]
      have := readImu_exit env
        (skeletonLoop bodyFrame (min bodyFrame.get_num_bodies MaxBodies) (loopEntry dev))
      rw [hL] at this
      exact this
    · rw [hT, readImu_i]
    · rw [hT, readImu_dev, imuAfter_Bodies]
    · intro _; rw [hT, readImu_dev, readImu_trace]; exact ⟨rfl, by simp⟩
    · intro h; rw [hL] at h; cases h
    · intro j hj; rw [hT, readImu_trace] at hj; simpa using hj
    · intro e he; rw [hT, readImu_trace]; simp [he]
  · have hT := tryBlock_pops_thrown dev hp hL
    refine capture_post_of_loop hr P ?_ ?_ ?_ ?_ ?_ ?_ ?_
    · rw [hT]; exact Or.inr hL
    · rw [hT]
    · rw [hT]
    · intro h; rw [hL] at h; cases h
    · intro _; rw [hT]; exact ⟨rfl, rfl⟩
    · intro j hj; rw [hT] at hj; exact hj
    · intro e he; rw [hT]; exact he

/-! ### Timeouts, errors before the frame, and range safety -/

/-- Every cycle times out, throws before a frame is popped, or pops a frame. -/
theorem cycle_cases (env : NativeCycle) :
    TimesOut env ∨ RaisesBeforeFrame env ∨ ∃ bodyFrame, Pops env bodyFrame := by
  cases h1 : env.get_capture with
  | timed_out => exact Or.inl (Or.inl h1)
  | error => exact Or.inr (Or.inl (Or.inl h1))
  | ok cap =>
    cases h2 : env.enqueue_capture cap with
    | timed_out => exact Or.inl (Or.inr (Or.inl ⟨cap, h1, h2⟩))
    | error => exact Or.inr (Or.inl (Or.inr (Or.inl ⟨cap, h1, h2⟩)))
    | ok u =>
      cases h3 : env.pop_result with
      | timed_out => exact Or.inl (Or.inr (Or.inr ⟨cap, h1, h2, h3⟩))
      | error => exact Or.inr (Or.inl (Or.inr (Or.inr ⟨cap, h1, h2, h3⟩)))
      | ok bodyFrame => exact Or.inr (Or.inr ⟨bodyFrame, cap, h1, h2, h3⟩)

theorem tryBlock_timesOut {env : NativeCycle} (dev : AzureKinectDevice) (h : TimesOut env) :
    (tryBlock env dev).exit = .returned ∧ (tryBlock env dev).dev = dev ∧
      ∀ j, Event.Bodies_index j ∉ (tryBlock env dev).trace := by
  rcases h with h1 | ⟨cap, h1, h2⟩ | ⟨cap, h1, h2, h3⟩
  · simp [tryBlock, h1]
  · simp [tryBlock, h1, h2]
  · simp [tryBlock, h1, h2, h3]

theorem tryBlock_raises {env : NativeCycle} (dev : AzureKinectDevice) (h : RaisesBeforeFrame env) :
    (tryBlock env dev).exit = .thrown ∧ (tryBlock env dev).dev = dev ∧
      (tryBlock env dev).i = 0 ∧
      ∀ e, e ∈ (tryBlock env dev).trace →
        e = Event.get_capture ∨ e = Event.enqueue_capture ∨ e = Event.pop_result := by
  rcases h with h1 | ⟨cap, h1, h2⟩ | ⟨cap, h1, h2, h3⟩
  · simp [tryBlock, h1]
  · simp [tryBlock, h1, h2]
  · simp [tryBlock, h1, h2, h3]

/-- A cycle that is stopped by one of the guards of lines 110-126. -/
theorem capture_guarded (env : NativeCycle) (dev : AzureKinectDevice)
    (h : ¬ (dev.bIsInitialized = true ∧ dev.NativeKinectDevice.isSome = true ∧
      dev.NativeBodyTracker.isSome = true)) :
    CaptureBodyTrackingFrame env dev = { exit := .returned, i := 0, dev := dev, trace := [] } := by
  unfold CaptureBodyTrackingFrame
  cases h1 : dev.bIsInitialized
  · simp
  · cases h2 : dev.NativeKinectDevice
    · simp
    · cases h3 : dev.NativeBodyTracker
      · simp
      · simp [h1, h2, h3] at h

theorem capture_timesOut {env : NativeCycle} (dev : AzureKinectDevice) (h : TimesOut env) :
    (CaptureBodyTrackingFrame env dev).exit = .returned ∧
      (CaptureBodyTrackingFrame env dev).dev = dev ∧
      ∀ j, Event.Bodies_index j ∉ (CaptureBodyTrackingFrame env dev).trace := by
  by_cases hg : dev.bIsInitialized = true ∧ dev.NativeKinectDevice.isSome = true ∧
      dev.NativeBodyTracker.isSome = true
  · obtain ⟨h1, h2, h3⟩ := hg
    have h2' : dev.NativeKinectDevice.isNone = false := by
      cases hd : dev.NativeKinectDevice <;> simp_all
    have h3' : dev.NativeBodyTracker.isNone = false := by
      cases hd : dev.NativeBodyTracker <;> simp_all
    obtain ⟨t1, t2, t3⟩ := tryBlock_timesOut dev h
    simp only [CaptureBodyTrackingFrame, h1, h2', h3', Bool.not_true, Bool.false_eq_true, if_false,
      t1]
    exact ⟨trivial, t2, t3⟩
  · rw [capture_guarded env dev hg]; simp

/-- A cycle on a ready controller in which acquire, enqueue or pop throws. -/
theorem capture_raises {env : NativeCycle} {dev : AzureKinectDevice} (hr : Ready dev)
    (h : RaisesBeforeFrame env) :
    (CaptureBodyTrackingFrame env dev).exit = .returned ∧
      (CaptureBodyTrackingFrame env dev).i = 0 ∧
      (∀ k : Nat,
        (CaptureBodyTrackingFrame env dev).dev.Bodies[k]? = (dev.Bodies[k]?).map untracked) ∧
      (CaptureBodyTrackingFrame env dev).dev =
        { dev with Bodies := (CaptureBodyTrackingFrame env dev).dev.Bodies } ∧
      (CaptureBodyTrackingFrame env dev).dev.Bodies.length = dev.Bodies.length ∧
      (∀ j, Event.Bodies_index j ∈ (CaptureBodyTrackingFrame env dev).trace → j < MaxBodies) ∧
      Event.get_imu_sample ∉ (CaptureBodyTrackingFrame env dev).trace := by
  have hlen : dev.Bodies.length = MaxBodies := hr.2.2.2
  obtain ⟨t1, t2, t3, t4⟩ := tryBlock_raises dev h
  obtain ⟨u, U, hc⟩ := capture_of_tryBlock env hr (Or.inr t1) (by rw [t3]; omega)
    (by rw [t2]; exact hlen)
  rw [hc]
  refine ⟨rfl, ?_, ?_, ?_, ?_, ?_, ?_⟩
  · show u.i = 0
    rw [U.i_eq]; exact t3
  · intro k
    show u.dev.Bodies[k]? = _
    have := U.slots k
    simp only [t2, t3, Nat.zero_le, true_and, Nat.zero_add, Nat.sub_zero] at this
    rw [this]
    by_cases hk : k < MaxBodies
    · rw [if_pos hk]
    · rw [if_neg hk]
      have : dev.Bodies[k]? = none := by rw [List.getElem?_eq_none_iff]; omega
      rw [this]; rfl
  · show u.dev = _
    rw [U.dev_eq]
    show ({ (tryBlock env dev).dev with Bodies := u.dev.Bodies } : AzureKinectDevice) = _
    rw [t2]
  · show u.dev.Bodies.length = _
    rw [U.length_eq]; show (tryBlock env dev).dev.Bodies.length = _; rw [t2]
  · intro j hj
    rcases U.trace_new _ hj with h | ⟨k, h, h1, h2⟩
    · rcases t4 _ h with h | h | h <;> cases h
    · cases h; rw [t3] at h2; omega
  · intro hj
    rcases U.trace_new _ hj with h | ⟨k, h, h1, h2⟩
    · rcases t4 _ h with h | h | h <;> cases h
    · cases h

/-- No cycle on a controller whose slots match its guards indexes out of range,
and every cycle leaves the guards and the number of slots as they are. -/
theorem capture_in_range (env : NativeCycle) {dev : AzureKinectDevice} (h : SlotsMatch dev) :
    (CaptureBodyTrackingFrame env dev).exit = .returned ∧
      (CaptureBodyTrackingFrame env dev).dev.Bodies.length = dev.Bodies.length ∧
      (CaptureBodyTrackingFrame env dev).dev.bIsInitialized = dev.bIsInitialized ∧
      (CaptureBodyTrackingFrame env dev).dev.NativeKinectDevice = dev.NativeKinectDevice ∧
      (CaptureBodyTrackingFrame env dev).dev.NativeBodyTracker = dev.NativeBodyTracker ∧
      (∀ j, Event.Bodies_index j ∈ (CaptureBodyTrackingFrame env dev).trace → j < MaxBodies) := by
  by_cases hg : dev.bIsInitialized = true ∧ dev.NativeKinectDevice.isSome = true ∧
      dev.NativeBodyTracker.isSome = true
  · have hr : Ready dev := ⟨hg.1, hg.2.1, hg.2.2, h hg.1 hg.2.1 hg.2.2⟩
    rcases cycle_cases env with ht | hx | ⟨bodyFrame, hp⟩
    · obtain ⟨a, b, c⟩ := capture_timesOut dev ht
      rw [b]
      exact ⟨a, rfl, rfl, rfl, rfl, fun j hj => absurd hj (c j)⟩
    · obtain ⟨a, _, _, d, e, f, _⟩ := capture_raises hr hx
      exact ⟨a, e, by rw [d], by rw [d], by rw [d], f⟩
    · have C := capture_post hr hp
      have hd : (CaptureBodyTrackingFrame env dev).dev =
          { dev with Bodies := (CaptureBodyTrackingFrame env dev).dev.Bodies } ∨
          (CaptureBodyTrackingFrame env dev).dev =
          { imuAfter env dev with Bodies := (CaptureBodyTrackingFrame env dev).dev.Bodies } := by
        rcases Nat.lt_or_ge (CaptureBodyTrackingFrame env dev).i
            (min bodyFrame.get_num_bodies MaxBodies) with hlt | hge
        · exact Or.inl (C.dev_stopped hlt).1
        · exact Or.inr (C.dev_done (Nat.le_antisymm C.i_le hge)).1
      refine ⟨C.exit_eq, C.length_eq, ?_, ?_, ?_, C.trace_index⟩
      · rcases hd with hd | hd <;> rw [hd]
        unfold imuAfter readImu; cases env.get_imu_sample <;> rfl
      · rcases hd with hd | hd <;> rw [hd]
        unfold imuAfter readImu; cases env.get_imu_sample <;> rfl
      · rcases hd with hd | hd <;> rw [hd]
        unfold imuAfter readImu; cases env.get_imu_sample <;> rfl
  · rw [capture_guarded env dev hg]
    exact ⟨rfl, rfl, rfl, rfl, rfl, by simp⟩

theorem capture_slotsMatch (env : NativeCycle) {dev : AzureKinectDevice} (h : SlotsMatch dev) :
    SlotsMatch (CaptureBodyTrackingFrame env dev).dev := by
  obtain ⟨_, b, c, d, e, _⟩ := capture_in_range env h
  intro h1 h2 h3
  rw [b]; rw [c] at h1; rw [d] at h2; rw [e] at h3
  exact h h1 h2 h3

theorem capture_ready_preserved (env : NativeCycle) {dev : AzureKinectDevice} (h : Ready dev) :
    Ready (CaptureBodyTrackingFrame env dev).dev := by
  obtain ⟨_, b, c, d, e, _⟩ := capture_in_range env (fun _ _ _ => h.2.2.2 : SlotsMatch dev)
  exact ⟨by rw [c]; exact h.1, by rw [d]; exact h.2.1, by rw [e]; exact h.2.2.1,
    by rw [b]; exact h.2.2.2⟩

theorem runCycles_ready (envs : List NativeCycle) :
    ∀ {dev : AzureKinectDevice}, Ready dev → Ready (runCycles envs dev) := by
  induction envs with
  | nil => intro dev h; exact h
  | cons env rest ih => intro dev h; exact ih (capture_ready_preserved env h)

/-! ### Slots after a cycle -/

theorem ready_getElem? {dev : AzureKinectDevice} (hr : Ready dev) {k : Nat} (hk : k < MaxBodies) :
    ∃ old, dev.Bodies[k]? = some old := by
  have : k < dev.Bodies.length := by rw [hr.2.2.2]; exact hk
  exact ⟨dev.Bodies[k], List.getElem?_eq_getElem this⟩

/-- With every body-id read succeeding the skeleton loop runs to the clamp. -/
theorem capture_i_of_idReads {env : NativeCycle} {bodyFrame : k4abt_frame}
    {dev : AzureKinectDevice} (hr : Ready dev) (hp : Pops env bodyFrame)
    (hid : IdReadsSucceed bodyFrame) :
    (CaptureBodyTrackingFrame env dev).i = min bodyFrame.get_num_bodies MaxBodies := by
  have C := capture_post hr hp
  rcases Nat.lt_or_ge (CaptureBodyTrackingFrame env dev).i
      (min bodyFrame.get_num_bodies MaxBodies) with hlt | hge
  · obtain ⟨h1, h2⟩ := C.stopped hlt
    rcases hid _ hlt with h | h
    · rw [h] at h1; cases h1
    · rw [h2] at h; cases h
  · exact Nat.le_antisymm C.i_le hge

theorem readsSucceed_idReads {bodyFrame : k4abt_frame} (h : ReadsSucceed bodyFrame) :
    IdReadsSucceed bodyFrame := fun k hk => Or.inr (h k hk).2

/-- The tracked flags of `MaxBodies` slots of which the first `d` are tracked and the
others are not. -/
theorem tracked_flags (bs : List UAzureKinectBody) (d : Nat) (hlen : bs.length = MaxBodies)
    (hd : d ≤ MaxBodies)
    (h1 : ∀ k, k < d → (bs[k]?).map (fun b => b.bIsTracked) = some true)
    (h2 : ∀ k, d ≤ k → k < MaxBodies → (bs[k]?).map (fun b => b.bIsTracked) = some false) :
    bs.map (fun b => b.bIsTracked) = List.replicate d true ++ List.replicate (MaxBodies - d) false := by
  apply List.ext_getElem?
  intro k
  rw [List.getElem?_map]
  by_cases hk : k < d
  · rw [h1 k hk, List.getElem?_append_left (by simpa using hk), List.getElem?_replicate,
      if_pos hk]
  · by_cases hk2 : k < MaxBodies
    · rw [h2 k (by omega) hk2, List.getElem?_append_right (by simp; omega),
        List.getElem?_replicate, if_pos (by simp; omega)]
    · have : bs[k]? = none := by rw [List.getElem?_eq_none_iff]; omega
      rw [this, List.getElem?_append_right (by simp; omega), List.getElem?_replicate,
        if_neg (by simp; omega)]
      rfl

/-- What a cycle in which everything succeeds leaves in the slots. -/
theorem capture_all_read {env : NativeCycle} {bodyFrame : k4abt_frame}
    {dev : AzureKinectDevice} (hr : Ready dev) (hp : Pops env bodyFrame)
    (hreads : ReadsSucceed bodyFrame) :
    (∀ i, i < min bodyFrame.get_num_bodies MaxBodies →
      ∃ skeleton id, bodyFrame.get_body_skeleton i = some skeleton ∧
        bodyFrame.get_body_id i = some id ∧
        (CaptureBodyTrackingFrame env dev).dev.Bodies[i]? =
          some { NativeBody := { id := id, skeleton := skeleton }, bIsTracked := true }) ∧
    (∀ j, min bodyFrame.get_num_bodies MaxBodies ≤ j → j < MaxBodies →
      ∃ old, dev.Bodies[j]? = some old ∧
        (CaptureBodyTrackingFrame env dev).dev.Bodies[j]? =
          some { NativeBody := old.NativeBody, bIsTracked := false }) := by
  have C := capture_post hr hp
  have hi := capture_i_of_idReads hr hp (readsSucceed_idReads hreads)
  constructor
  · intro i hlt
    obtain ⟨hs, hd⟩ := hreads i hlt
    obtain ⟨skeleton, hs⟩ := Option.isSome_iff_exists.mp hs
    obtain ⟨id, hd⟩ := Option.isSome_iff_exists.mp hd
    obtain ⟨old, hold⟩ := ready_getElem? hr (Nat.lt_of_lt_of_le hlt (min_le_MaxBodies _))
    refine ⟨skeleton, id, hs, hd, ?_⟩
    rw [C.slots i, hi, if_pos hlt, hold]
    simp [slotAfter, hs, hd]
  · intro j hge hlt
    obtain ⟨old, hold⟩ := ready_getElem? hr hlt
    refine ⟨old, hold, ?_⟩
    rw [C.slots j, hi, if_neg (by omega), hold]
    rfl

/-! ### `Initialize` by cases -/

/-- The outcome of `Initialize` by the first native call that throws, if any. -/
theorem initialize_cases (native : NativeInit) (engine : EngineInit) (DepthMode WiredSyncMode : Nat)
    (DepthDelayOffColorUsec : Int) (this : Nat) (dev : AzureKinectDevice) (w : World) :
    let config : k4a_device_configuration_t :=
      { depth_mode := DepthMode, color_resolution := K4A_COLOR_RESOLUTION_720P,
        wired_sync_mode := WiredSyncMode, depth_delay_off_color_usec := DepthDelayOffColorUsec }
    let r := Initialize native engine DepthMode WiredSyncMode DepthDelayOffColorUsec this dev w
    (native.device_open dev.DeviceId = none ∧ r = { ret := false, dev := dev, world := w }) ∨
    (∃ handle, native.device_open dev.DeviceId = some handle ∧
      ((native.start_cameras config = false ∧
          r = { ret := false, world := w,
                dev := { dev with NativeKinectDevice := some (k4a_device.mk handle false false) } }) ∨
       (native.start_cameras config = true ∧ native.start_imu = false ∧
          r = { ret := false, world := w,
                dev := { dev with NativeKinectDevice := some (k4a_device.mk handle true false) } }) ∨
       (native.start_cameras config = true ∧ native.start_imu = true ∧
          (native.get_calibration DepthMode K4A_COLOR_RESOLUTION_720P = none ∨
            ∃ calibration, native.get_calibration DepthMode K4A_COLOR_RESOLUTION_720P
                = some calibration ∧ native.tracker_create calibration = none) ∧
          r = { ret := false, world := w,
                dev := { dev with NativeKinectDevice := some (k4a_device.mk handle true true) } }) ∨
       (∃ calibration tracker, native.start_cameras config = true ∧ native.start_imu = true ∧
          native.get_calibration DepthMode K4A_COLOR_RESOLUTION_720P = some calibration ∧
          native.tracker_create calibration = some tracker ∧
          r.ret = true ∧
          r.dev = { dev with
            NativeKinectDevice := some (k4a_device.mk handle true true)
            NativeBodyTracker := some tracker
            bIsInitialized := true
            Bodies := (List.range MaxBodies).map engine.NewObject
            Thread := some (FAzureKinectThread.InitPolling engine.operator_new
              engine.FRunnableThread_Create (some this) w.Instances).1
            TickHandle := w.CoreTicker.NextID + 1 } ∧
          r.world = { Instances := (FAzureKinectThread.InitPolling engine.operator_new
              engine.FRunnableThread_Create (some this) w.Instances).2
                      CoreTicker := (w.CoreTicker.AddTicker this).2 }))) := by
  intro config r
  cases h1 : native.device_open dev.DeviceId with
  | none => left; exact ⟨rfl, by simp only [r, Initialize, h1]⟩
  | some handle =>
    right
    refine ⟨handle, rfl, ?_⟩
    cases h2 : native.start_cameras config with
    | false => left; exact ⟨rfl, by simp only [r, Initialize, h1]; simp [config] at h2; simp [h2]⟩
    | true =>
      right
      cases h3 : native.start_imu with
      | false =>
        left
        exact ⟨rfl, rfl, by simp only [r, Initialize, h1]; simp [config] at h2; simp [h2, h3]⟩
      | true =>
        right
        cases h4 : native.get_calibration DepthMode K4A_COLOR_RESOLUTION_720P with
        | none =>
          left
          exact ⟨rfl, rfl, Or.inl rfl,
            by simp only [r, Initialize, h1]; simp [config] at h2; simp [h2, h3, h4]⟩
        | some calibration =>
          cases h5 : native.tracker_create calibration with
          | none =>
            left
            exact ⟨rfl, rfl, Or.inr ⟨calibration, rfl, h5⟩,
              by simp only [r, Initialize, h1]; simp [config] at h2; simp [h2, h3, h4, h5]⟩
          | some tracker =>
            right
            refine ⟨calibration, tracker, rfl, rfl, rfl, h5, ?_, ?_, ?_⟩
            · simp only [r, Initialize, h1]; simp [config] at h2; simp [h2, h3, h4, h5]
            · simp only [r, Initialize, h1]; simp [config] at h2
              simp [h2, h3, h4, h5, InitializeBodies, StartKinectThread, FTicker.AddTicker]
            · simp only [r, Initialize, h1]; simp [config] at h2
              simp [h2, h3, h4, h5, InitializeBodies, StartKinectThread, FTicker.AddTicker]

/-! ### Capture cycles: success, timeout, IMU -/

theorem initialize_ready {native : NativeInit} {engine : EngineInit} {DepthMode WiredSyncMode : Nat}
    {DepthDelayOffColorUsec : Int} {this : Nat} {dev : AzureKinectDevice} {w : World}
    (h : (Initialize native engine DepthMode WiredSyncMode DepthDelayOffColorUsec this dev w).ret
      = true) :
    Ready (Initialize native engine DepthMode WiredSyncMode DepthDelayOffColorUsec this dev w).dev := by
  rcases initialize_cases native engine DepthMode WiredSyncMode DepthDelayOffColorUsec this dev w
    with ⟨_, hr⟩ | ⟨handle, _, ⟨_, hr⟩ | ⟨_, _, hr⟩ | ⟨_, _, _, hr⟩ | ⟨c, t, _, _, _, _, _, hd, _⟩⟩
  · rw [hr] at h; cases h
  · rw [hr] at h; cases h
  · rw [hr] at h; cases h
  · rw [hr] at h; cases h
  · rw [hd]; exact ⟨rfl, rfl, rfl, by simp⟩

theorem ready_crowdedDevice : Ready crowdedDevice := ⟨rfl, rfl, rfl, rfl⟩

theorem pops_cycleWith (bodyFrame : k4abt_frame) (imu : Wait k4a_imu_sample_t) :
    Pops (cycleWith bodyFrame imu) bodyFrame := ⟨5, rfl, rfl, rfl⟩

theorem readsSucceed_sampleFrame (n : Nat) : ReadsSucceed (sampleFrame n) :=
  fun _ _ => ⟨rfl, rfl⟩

/-- C1: on an initialized controller with its `MaxBodies` slots in any prior state,
a cycle in which acquire, enqueue and pop succeed, the frame reports `n` bodies and
every skeleton and body-id read succeeds leaves every slot below
`min n MaxBodies` tracked with the skeleton and id of that body of the frame and
every slot from there up to `MaxBodies` untracked; a cycle of 3 bodies followed by
a cycle of 1 body leaves exactly slot 0 tracked. -/
theorem capture_tracks_detected_and_clears_rest (dev : AzureKinectDevice) (hr : Ready dev) :
    (∀ (env : NativeCycle) (bodyFrame : k4abt_frame), Pops env bodyFrame →
      ReadsSucceed bodyFrame →
      (∀ i, i < min bodyFrame.get_num_bodies MaxBodies →
        ∃ skeleton id, bodyFrame.get_body_skeleton i = some skeleton ∧
          bodyFrame.get_body_id i = some id ∧
          (CaptureBodyTrackingFrame env dev).dev.Bodies[i]? =
            some { NativeBody := { id := id, skeleton := skeleton }, bIsTracked := true }) ∧
      (∀ j, min bodyFrame.get_num_bodies MaxBodies ≤ j → j < MaxBodies →
        ∃ old, dev.Bodies[j]? = some old ∧
          (CaptureBodyTrackingFrame env dev).dev.Bodies[j]? =
            some { NativeBody := old.NativeBody, bIsTracked := false })) ∧
    (∀ (env1 env2 : NativeCycle) (frame1 frame2 : k4abt_frame),
      Pops env1 frame1 → ReadsSucceed frame1 → frame1.get_num_bodies = 3 →
      Pops env2 frame2 → ReadsSucceed frame2 → frame2.get_num_bodies = 1 →
      (CaptureBodyTrackingFrame env2 (CaptureBodyTrackingFrame env1 dev).dev).dev.Bodies.map
          (fun b => b.bIsTracked) =
        [true, false, false, false, false, false, false, false, false, false]) := by
  refine ⟨fun env bodyFrame hp hreads => capture_all_read hr hp hreads, ?_⟩
  intro env1 env2 frame1 frame2 _ _ _ hp2 hreads2 hn2
  have hr1 : Ready (CaptureBodyTrackingFrame env1 dev).dev := capture_ready_preserved env1 hr
  have hr2 := capture_ready_preserved env2 hr1
  obtain ⟨ha, hb⟩ := capture_all_read hr1 hp2 hreads2
  have hm : min frame2.get_num_bodies MaxBodies = 1 := by rw [hn2]; rfl
  rw [hm] at ha hb
  have := tracked_flags _ 1 hr2.2.2.2 (by decide)
    (by
      intro k hk
      obtain ⟨skeleton, id, _, _, h⟩ := ha k hk
      rw [h]; rfl)
    (by
      intro k hk1 hk2
      obtain ⟨old, _, h⟩ := hb k hk1 hk2
      rw [h]; rfl)
  rw [this]; rfl

theorem capture_tracks_detected_and_clears_rest_witness :
    Ready crowdedDevice ∧
    (CaptureBodyTrackingFrame (cycleWith (sampleFrame 3) (.ok sampleImu)) crowdedDevice).dev.Bodies.map
        (fun b => b.bIsTracked) =
      [true, true, true, false, false, false, false, false, false, false] ∧
    (CaptureBodyTrackingFrame (cycleWith (sampleFrame 1) .timed_out)
        (CaptureBodyTrackingFrame (cycleWith (sampleFrame 3) (.ok sampleImu)) crowdedDevice).dev
      ).dev.Bodies.map (fun b => b.bIsTracked) =
      [true, false, false, false, false, false, false, false, false, false] :=
  ⟨ready_crowdedDevice, by decide,
    (capture_tracks_detected_and_clears_rest crowdedDevice ready_crowdedDevice).2 _ _ _ _
      (pops_cycleWith _ _) (readsSucceed_sampleFrame 3) rfl
      (pops_cycleWith _ _) (readsSucceed_sampleFrame 1) rfl⟩

/-- C2: a cycle in which one of the three blocking stages (get_capture,
enqueue_capture, pop_result) returns false leaves every body slot and the IMU
snapshot, and in fact the whole controller, as they were before the cycle. -/
theorem timeout_leaves_slots_and_imu (env : NativeCycle) (dev : AzureKinectDevice)
    (h : TimesOut env) :
    (CaptureBodyTrackingFrame env dev).dev.Bodies = dev.Bodies ∧
    (CaptureBodyTrackingFrame env dev).dev.Accelerometer = dev.Accelerometer ∧
    (CaptureBodyTrackingFrame env dev).dev.Gyroscope = dev.Gyroscope ∧
    (CaptureBodyTrackingFrame env dev).dev.Temperature = dev.Temperature ∧
    (CaptureBodyTrackingFrame env dev).dev = dev := by
  obtain ⟨_, hd, _⟩ := capture_timesOut dev h
  rw [hd]; exact ⟨rfl, rfl, rfl, rfl, rfl⟩

theorem timeout_leaves_slots_and_imu_witness :
    TimesOut enqueueTimeout ∧
    (CaptureBodyTrackingFrame enqueueTimeout crowdedDevice).dev.Bodies = List.replicate 10 staleBody ∧
    (CaptureBodyTrackingFrame enqueueTimeout crowdedDevice).dev = crowdedDevice :=
  ⟨Or.inr (Or.inl ⟨5, rfl, rfl⟩),
    (timeout_leaves_slots_and_imu enqueueTimeout crowdedDevice (Or.inr (Or.inl ⟨5, rfl, rfl⟩))).1,
    (timeout_leaves_slots_and_imu enqueueTimeout crowdedDevice (Or.inr (Or.inl ⟨5, rfl, rfl⟩))).2.2.2.2⟩

theorem neg_neg_float (v : float) : - -v = v := by
  cases v with
  | mk s m => show float.mk (!(!s)) m = float.mk s m; rw [Bool.not_not]

/-- C6: in a cycle that reaches the IMU read (acquire, enqueue and pop succeed and
no body-id read throws), a sample read successfully is published as
Accelerometer = (-acc.x, -acc.y, -acc.z), Gyroscope = (-gyro.x, -gyro.y, -gyro.z),
Temperature = temperature; when the read returns false or throws, the snapshot is
left as it was; negating a float twice gives it back. -/
theorem imu_snapshot_is_negated_sample (env : NativeCycle) (bodyFrame : k4abt_frame)
    (dev : AzureKinectDevice) (hr : Ready dev) (hp : Pops env bodyFrame)
    (hid : IdReadsSucceed bodyFrame) :
    (∀ imu_sample, env.get_imu_sample = .ok imu_sample →
      (CaptureBodyTrackingFrame env dev).dev.Accelerometer =
        FVector.mk (-imu_sample.acc_sample.x) (-imu_sample.acc_sample.y) (-imu_sample.acc_sample.z) ∧
      (CaptureBodyTrackingFrame env dev).dev.Gyroscope =
        FVector.mk (-imu_sample.gyro_sample.x) (-imu_sample.gyro_sample.y)
          (-imu_sample.gyro_sample.z) ∧
      (CaptureBodyTrackingFrame env dev).dev.Temperature = imu_sample.temperature) ∧
    (env.get_imu_sample = .timed_out ∨ env.get_imu_sample = .error →
      (CaptureBodyTrackingFrame env dev).dev.Accelerometer = dev.Accelerometer ∧
      (CaptureBodyTrackingFrame env dev).dev.Gyroscope = dev.Gyroscope ∧
      (CaptureBodyTrackingFrame env dev).dev.Temperature = dev.Temperature) ∧
    Event.get_imu_sample ∈ (CaptureBodyTrackingFrame env dev).trace ∧
    (∀ v : float, - -v = v) ∧
    (∀ x y z : float, FVector.mk (- -x) (- -y) (- -z) = FVector.mk x y z) := by
  have C := capture_post hr hp
  obtain ⟨hd, htr⟩ := C.dev_done (capture_i_of_idReads hr hp hid)
  refine ⟨?_, ?_, htr, neg_neg_float, ?_⟩
  · intro imu_sample hs
    rw [hd]
    simp [imuAfter, readImu, hs]
  · intro hs
    rw [hd]
    rcases hs with hs | hs <;> simp [imuAfter, readImu, hs]
  · intro x y z; rw [neg_neg_float, neg_neg_float, neg_neg_float]

theorem imu_snapshot_is_negated_sample_witness :
    Ready crowdedDevice ∧
    (CaptureBodyTrackingFrame (cycleWith partialFrame (.ok sampleImu)) crowdedDevice).dev.Accelerometer
      = FVector.mk ⟨true, 1⟩ ⟨false, 2⟩ ⟨true, 3⟩ ∧
    (CaptureBodyTrackingFrame (cycleWith partialFrame (.ok sampleImu)) crowdedDevice).dev.Gyroscope
      = FVector.mk ⟨false, 4⟩ ⟨true, 5⟩ ⟨false, 6⟩ ∧
    (CaptureBodyTrackingFrame (cycleWith partialFrame (.ok sampleImu)) crowdedDevice).dev.Temperature
      = ⟨false, 25⟩ :=
  ⟨ready_crowdedDevice,
    (imu_snapshot_is_negated_sample (cycleWith partialFrame (.ok sampleImu)) partialFrame
      crowdedDevice ready_crowdedDevice (pops_cycleWith _ _) (fun _ _ => Or.inr rfl)).1
      sampleImu rfl⟩

/-! ### Capture cycles: local failure, native errors, bounds -/

theorem idReadsSucceed_partialFrame : IdReadsSucceed partialFrame := fun _ _ => Or.inr rfl

/-- C8: in a cycle that pops a frame of `n` bodies and in which every body-id read
succeeds, a slot whose skeleton extraction fails is left untracked with its stored
skeleton and id as before, every other slot below `min n MaxBodies` is tracked with
the skeleton and id of its body, the loop reads the skeleton of every index below
`min n MaxBodies`, and the IMU read is made. -/
theorem skeleton_failure_is_local (env : NativeCycle) (bodyFrame : k4abt_frame)
    (dev : AzureKinectDevice) (hr : Ready dev) (hp : Pops env bodyFrame)
    (hid : IdReadsSucceed bodyFrame) :
    (∀ k, k < min bodyFrame.get_num_bodies MaxBodies → bodyFrame.get_body_skeleton k = none →
      ∃ old, dev.Bodies[k]? = some old ∧
        (CaptureBodyTrackingFrame env dev).dev.Bodies[k]? =
          some { NativeBody := old.NativeBody, bIsTracked := false }) ∧
    (∀ i skeleton, i < min bodyFrame.get_num_bodies MaxBodies →
      bodyFrame.get_body_skeleton i = some skeleton →
      ∃ id, bodyFrame.get_body_id i = some id ∧
        (CaptureBodyTrackingFrame env dev).dev.Bodies[i]? =
          some { NativeBody := { id := id, skeleton := skeleton }, bIsTracked := true }) ∧
    (∀ k, k < min bodyFrame.get_num_bodies MaxBodies →
      Event.get_body_skeleton k ∈ (CaptureBodyTrackingFrame env dev).trace) ∧
    Event.get_imu_sample ∈ (CaptureBodyTrackingFrame env dev).trace := by
  have C := capture_post hr hp
  have hi := capture_i_of_idReads hr hp hid
  refine ⟨?_, ?_, ?_, (C.dev_done hi).2⟩
  · intro k hk hs
    obtain ⟨old, hold⟩ := ready_getElem? hr (Nat.lt_of_lt_of_le hk (min_le_MaxBodies _))
    refine ⟨old, hold, ?_⟩
    rw [C.slots k, hi, if_pos hk, hold]
    simp [slotAfter, hs, untracked]
  · intro i skeleton hlt hs
    obtain ⟨old, hold⟩ := ready_getElem? hr (Nat.lt_of_lt_of_le hlt (min_le_MaxBodies _))
    rcases hid i hlt with h | h
    · rw [h] at hs; cases hs
    · obtain ⟨id, hd⟩ := Option.isSome_iff_exists.mp h
      refine ⟨id, hd, ?_⟩
      rw [C.slots i, hi, if_pos hlt, hold]
      simp [slotAfter, hs, hd]
  · intro k hk
    exact C.trace_visit k (by rw [hi]; exact hk)

theorem skeleton_failure_is_local_witness :
    Ready crowdedDevice ∧ partialFrame.get_body_skeleton 1 = none ∧
    (CaptureBodyTrackingFrame (cycleWith partialFrame .timed_out) crowdedDevice).dev.Bodies.take 3 =
      [⟨⟨100, ⟨[0]⟩⟩, true⟩, ⟨⟨7, ⟨[7]⟩⟩, false⟩, ⟨⟨102, ⟨[2]⟩⟩, true⟩] ∧
    Event.get_imu_sample ∈
      (CaptureBodyTrackingFrame (cycleWith partialFrame .timed_out) crowdedDevice).trace :=
  ⟨ready_crowdedDevice, rfl, by decide,
    (skeleton_failure_is_local (cycleWith partialFrame .timed_out) partialFrame crowdedDevice
      ready_crowdedDevice (pops_cycleWith _ _) idReadsSucceed_partialFrame).2.2.2⟩

/-- C9: a native error is not treated like a timeout. On an initialized controller,
(1) a `k4a::error` thrown by acquire, enqueue or pop is not propagated, leaves all
`MaxBodies` slots untracked and the IMU snapshot unchanged, whereas (2) a timeout at
the same stage leaves the slots unchanged; (3) a `k4a::error` thrown by the body-id
read of index `i` is not propagated, leaves the slots below `i` as the cycle wrote
them, every slot from `i` up to `MaxBodies` untracked and the IMU snapshot
unchanged, and no IMU read is made. -/
theorem native_error_untracks_from_index (dev : AzureKinectDevice) (hr : Ready dev) :
    (∀ env : NativeCycle, RaisesBeforeFrame env →
      (CaptureBodyTrackingFrame env dev).exit = .returned ∧
      (CaptureBodyTrackingFrame env dev).i = 0 ∧
      (∀ j, j < MaxBodies → ∃ old, dev.Bodies[j]? = some old ∧
        (CaptureBodyTrackingFrame env dev).dev.Bodies[j]? =
          some { NativeBody := old.NativeBody, bIsTracked := false }) ∧
      (CaptureBodyTrackingFrame env dev).dev.Accelerometer = dev.Accelerometer ∧
      (CaptureBodyTrackingFrame env dev).dev.Gyroscope = dev.Gyroscope ∧
      (CaptureBodyTrackingFrame env dev).dev.Temperature = dev.Temperature) ∧
    (∀ env : NativeCycle, TimesOut env →
      (CaptureBodyTrackingFrame env dev).exit = .returned ∧
      (CaptureBodyTrackingFrame env dev).dev.Bodies = dev.Bodies) ∧
    (∀ (env : NativeCycle) (bodyFrame : k4abt_frame) (i : Nat), Pops env bodyFrame →
      IdReadRaisesAt bodyFrame i →
      (CaptureBodyTrackingFrame env dev).exit = .returned ∧
      (CaptureBodyTrackingFrame env dev).i = i ∧
      (∀ k, k < i → bodyFrame.get_body_skeleton k = none →
        ∃ old, dev.Bodies[k]? = some old ∧
          (CaptureBodyTrackingFrame env dev).dev.Bodies[k]? =
            some { NativeBody := old.NativeBody, bIsTracked := false }) ∧
      (∀ k skeleton, k < i → bodyFrame.get_body_skeleton k = some skeleton →
        ∃ id, bodyFrame.get_body_id k = some id ∧
          (CaptureBodyTrackingFrame env dev).dev.Bodies[k]? =
            some { NativeBody := { id := id, skeleton := skeleton }, bIsTracked := true }) ∧
      (∀ j, i ≤ j → j < MaxBodies → ∃ old, dev.Bodies[j]? = some old ∧
        (CaptureBodyTrackingFrame env dev).dev.Bodies[j]? =
          some { NativeBody := old.NativeBody, bIsTracked := false }) ∧
      (CaptureBodyTrackingFrame env dev).dev.Accelerometer = dev.Accelerometer ∧
      (CaptureBodyTrackingFrame env dev).dev.Gyroscope = dev.Gyroscope ∧
      (CaptureBodyTrackingFrame env dev).dev.Temperature = dev.Temperature ∧
      Event.get_imu_sample ∉ (CaptureBodyTrackingFrame env dev).trace) := by
  refine ⟨?_, ?_, ?_⟩
  · intro env hx
    obtain ⟨a, b, c, d, _, _, _⟩ := capture_raises hr hx
    refine ⟨a, b, ?_, by rw [d], by rw [d], by rw [d]⟩
    intro j hj
    obtain ⟨old, hold⟩ := ready_getElem? hr hj
    exact ⟨old, hold, by rw [c j, hold]; rfl⟩
  · intro env ht
    obtain ⟨a, b, _⟩ := capture_timesOut dev ht
    exact ⟨a, by rw [b]⟩
  · intro env bodyFrame i hp ⟨hlt, hsk, hidn, hbelow⟩
    have C := capture_post hr hp
    have hi : (CaptureBodyTrackingFrame env dev).i = i := by
      rcases Nat.lt_trichotomy (CaptureBodyTrackingFrame env dev).i i with h | h | h
      · obtain ⟨h1, h2⟩ := C.stopped (Nat.lt_trans h hlt)
        rcases hbelow _ h with h3 | h3
        · rw [h3] at h1; cases h1
        · rw [h2] at h3; cases h3
      · exact h
      · rcases C.passed i h with h3 | h3
        · rw [h3] at hsk; cases hsk
        · rw [hidn] at h3; cases h3
    obtain ⟨hd, htr⟩ := C.dev_stopped (by rw [hi]; exact hlt)
    refine ⟨C.exit_eq, hi, ?_, ?_, ?_, by rw [hd], by rw [hd], by rw [hd], htr⟩
    · intro k hk hs
      obtain ⟨old, hold⟩ := ready_getElem? hr
        (Nat.lt_of_lt_of_le (Nat.lt_trans hk hlt) (min_le_MaxBodies _))
      refine ⟨old, hold, ?_⟩
      rw [C.slots k, hi, if_pos hk, hold]
      simp [slotAfter, hs, untracked]
    · intro k skeleton hk hs
      obtain ⟨old, hold⟩ := ready_getElem? hr
        (Nat.lt_of_lt_of_le (Nat.lt_trans hk hlt) (min_le_MaxBodies _))
      rcases hbelow k hk with h | h
      · rw [h] at hs; cases hs
      · obtain ⟨id, hd'⟩ := Option.isSome_iff_exists.mp h
        refine ⟨id, hd', ?_⟩
        rw [C.slots k, hi, if_pos hk, hold]
        simp [slotAfter, hs, hd']
    · intro j hj1 hj2
      obtain ⟨old, hold⟩ := ready_getElem? hr hj2
      refine ⟨old, hold, ?_⟩
      rw [C.slots j, hi, if_neg (by omega), hold]
      rfl

theorem native_error_untracks_from_index_witness :
    Ready crowdedDevice ∧ RaisesBeforeFrame enqueueError ∧ TimesOut enqueueTimeout ∧
    IdReadRaisesAt brokenFrame 2 ∧
    (CaptureBodyTrackingFrame enqueueError crowdedDevice).dev.Bodies.map (fun b => b.bIsTracked) =
      List.replicate 10 false ∧
    (CaptureBodyTrackingFrame enqueueTimeout crowdedDevice).dev.Bodies = crowdedDevice.Bodies ∧
    (CaptureBodyTrackingFrame (cycleWith brokenFrame (.ok sampleImu)) crowdedDevice).i = 2 ∧
    (CaptureBodyTrackingFrame (cycleWith brokenFrame (.ok sampleImu)) crowdedDevice).dev.Bodies.map
        (fun b => b.bIsTracked) =
      [true, true, false, false, false, false, false, false, false, false] :=
  ⟨ready_crowdedDevice, Or.inr (Or.inl ⟨5, rfl, rfl⟩), Or.inr (Or.inl ⟨5, rfl, rfl⟩),
    ⟨by decide, rfl, rfl, fun _ _ => Or.inr (by simp [brokenFrame]; omega)⟩,
    by decide,
    ((native_error_untracks_from_index crowdedDevice ready_crowdedDevice).2.1 enqueueTimeout
      (Or.inr (Or.inl ⟨5, rfl, rfl⟩))).2,
    ((native_error_untracks_from_index crowdedDevice ready_crowdedDevice).2.2
      (cycleWith brokenFrame (.ok sampleImu)) brokenFrame 2 (pops_cycleWith _ _)
      ⟨by decide, rfl, rfl, fun _ _ => Or.inr (by simp [brokenFrame]; omega)⟩).2.1,
    by decide⟩

/-- C10: in the state a successful `Initialize` produces the body array has exactly
`MaxBodies` entries, and after any number of capture cycles every further cycle,
whatever the frame reports and whatever fails or throws, returns without an
out-of-range access, evaluates `Bodies[..]` only at indices below `MaxBodies`, and
leaves the array with `MaxBodies` entries. -/
theorem slot_indexing_in_bounds (native : NativeInit) (engine : EngineInit)
    (DepthMode WiredSyncMode : Nat) (DepthDelayOffColorUsec : Int) (this : Nat)
    (dev : AzureKinectDevice) (w : World)
    (h : (Initialize native engine DepthMode WiredSyncMode DepthDelayOffColorUsec this dev w).ret
      = true)
    (before : List NativeCycle) (env : NativeCycle) :
    (Initialize native engine DepthMode WiredSyncMode DepthDelayOffColorUsec this dev w
      ).dev.Bodies.length = MaxBodies ∧
    (CaptureBodyTrackingFrame env (runCycles before
      (Initialize native engine DepthMode WiredSyncMode DepthDelayOffColorUsec this dev w).dev)
      ).exit = .returned ∧
    (∀ j, Event.Bodies_index j ∈ (CaptureBodyTrackingFrame env (runCycles before
      (Initialize native engine DepthMode WiredSyncMode DepthDelayOffColorUsec this dev w).dev)
      ).trace → j < MaxBodies) ∧
    (CaptureBodyTrackingFrame env (runCycles before
      (Initialize native engine DepthMode WiredSyncMode DepthDelayOffColorUsec this dev w).dev)
      ).dev.Bodies.length = MaxBodies := by
  have hr := initialize_ready h
  have hr2 := runCycles_ready before hr
  obtain ⟨a, b, _, _, _, f⟩ := capture_in_range env (fun _ _ _ => hr2.2.2.2 : SlotsMatch _)
  exact ⟨hr.2.2.2, a, f, by rw [b]; exact hr2.2.2.2⟩

theorem slot_indexing_in_bounds_witness :
    (Initialize nativeOk engineOk 1 0 0 500 freshDevice emptyWorld).ret = true ∧
    (CaptureBodyTrackingFrame (cycleWith (sampleFrame 4000000000) .error)
      (runCycles [enqueueError, cycleWith brokenFrame .timed_out]
        (Initialize nativeOk engineOk 1 0 0 500 freshDevice emptyWorld).dev)).exit = .returned ∧
    (CaptureBodyTrackingFrame (cycleWith (sampleFrame 4000000000) .error)
      (runCycles [enqueueError, cycleWith brokenFrame .timed_out]
        (Initialize nativeOk engineOk 1 0 0 500 freshDevice emptyWorld).dev)).dev.Bodies.length
      = MaxBodies :=
  ⟨rfl,
    (slot_indexing_in_bounds nativeOk engineOk 1 0 0 500 freshDevice emptyWorld rfl
      [enqueueError, cycleWith brokenFrame .timed_out]
      (cycleWith (sampleFrame 4000000000) .error)).2.1,
    (slot_indexing_in_bounds nativeOk engineOk 1 0 0 500 freshDevice emptyWorld rfl
      [enqueueError, cycleWith brokenFrame .timed_out]
      (cycleWith (sampleFrame 4000000000) .error)).2.2.2⟩

/-! ### The thread registry -/

/-- The two facts the registry keeps: no two entries for one device, no two entries at
one address. -/
theorem oneWorker_of_nodup {Instances : List FAzureKinectThread}
    (h : (Instances.map (fun I => I.KinectDevice)).Nodup) : OneWorkerPerDevice Instances := by
  intro Device
  induction Instances with
  | nil => simp
  | cons a l ih =>
    rw [List.map_cons, List.nodup_cons] at h
    by_cases ha : a.KinectDevice = Device
    · have hnone : l.filter (fun Instance => Instance.KinectDevice == Device) = [] := by
        rw [List.filter_eq_nil_iff]
        intro b hb hbd
        apply h.1
        rw [List.mem_map]
        exact ⟨b, hb, by rw [ha]; simpa using hbd⟩
      rw [List.filter_cons_of_pos (by simpa using ha), hnone]
      simp
    · rw [List.filter_cons_of_neg (by simpa using ha)]
      exact ih h.2

theorem nodup_of_oneWorker {Instances : List FAzureKinectThread}
    (h : OneWorkerPerDevice Instances) : (Instances.map (fun I => I.KinectDevice)).Nodup := by
  induction Instances with
  | nil => simp
  | cons a l ih =>
    rw [List.map_cons, List.nodup_cons]
    constructor
    · intro hmem
      rw [List.mem_map] at hmem
      obtain ⟨b, hb, hbd⟩ := hmem
      have h1 := h a.KinectDevice
      rw [List.filter_cons_of_pos (by simp)] at h1
      have : b ∈ l.filter (fun Instance => Instance.KinectDevice == a.KinectDevice) := by
        rw [List.mem_filter]; exact ⟨hb, by simpa using hbd⟩
      have := List.length_pos_of_mem this
      simp only [List.length_cons] at h1
      omega
    · apply ih
      intro Device
      have h1 := h Device
      by_cases ha : a.KinectDevice = Device
      · rw [List.filter_cons_of_pos (by simpa using ha)] at h1
        simp only [List.length_cons] at h1
        omega
      · rw [List.filter_cons_of_neg (by simpa using ha)] at h1
        exact h1

theorem find?_device_none {Instances : List FAzureKinectThread} {Device : Option Nat}
    (h : Instances.find? (fun Instance => Instance.KinectDevice == Device) = none) :
    ∀ I, I ∈ Instances → I.KinectDevice ≠ Device := by
  intro I hI hd
  rw [List.find?_eq_none] at h
  exact h I hI (by simpa using hd)

theorem find?_device_some {Instances : List FAzureKinectThread} {Device : Option Nat}
    {I : FAzureKinectThread}
    (h : Instances.find? (fun Instance => Instance.KinectDevice == Device) = some I) :
    I ∈ Instances ∧ I.KinectDevice = Device := by
  have h1 := List.find?_some h
  exact ⟨List.mem_of_find?_eq_some h, by simpa using h1⟩

/-- The worker `InitPolling` returns is an entry of the registry it leaves, for the
asked device; the entries it found are still there. -/
theorem InitPolling_mem (alloc : List Nat → Nat) (created Device : Option Nat)
    (Instances : List FAzureKinectThread) :
    (∃ I, I ∈ (FAzureKinectThread.InitPolling alloc created Device Instances).2 ∧
      I.addr = (FAzureKinectThread.InitPolling alloc created Device Instances).1 ∧
      I.KinectDevice = Device) ∧
    ∀ J, J ∈ Instances → J ∈ (FAzureKinectThread.InitPolling alloc created Device Instances).2 := by
  unfold FAzureKinectThread.InitPolling
  cases h : Instances.find? (fun Instance => Instance.KinectDevice == Device) with
  | some I =>
    obtain ⟨h1, h2⟩ := find?_device_some h
    exact ⟨⟨I, h1, rfl, h2⟩, fun J hJ => hJ⟩
  | none =>
    refine ⟨⟨_, by simp, rfl, rfl⟩, fun J hJ => ?_⟩
    simp [hJ]

theorem InitPolling_nodup_device (alloc : List Nat → Nat) (created Device : Option Nat)
    {Instances : List FAzureKinectThread}
    (h : (Instances.map (fun I => I.KinectDevice)).Nodup) :
    ((FAzureKinectThread.InitPolling alloc created Device Instances).2.map
      (fun I => I.KinectDevice)).Nodup := by
  unfold FAzureKinectThread.InitPolling
  cases hf : Instances.find? (fun Instance => Instance.KinectDevice == Device) with
  | some I => exact h
  | none =>
    simp only [List.map_append, List.map_cons, List.map_nil]
    rw [List.nodup_append]
    refine ⟨h, by simp, ?_⟩
    intro a ha hb
    simp only [List.mem_singleton, FAzureKinectThread.ctor] at hb
    rw [List.mem_map] at ha
    obtain ⟨I, hI, hId⟩ := ha
    exact find?_device_none hf I hI (by rw [hId, hb])

theorem InitPolling_nodup_addr {alloc : List Nat → Nat} (hfresh : ∀ live, alloc live ∉ live)
    (created Device : Option Nat) {Instances : List FAzureKinectThread}
    (h : (Instances.map (fun I => I.addr)).Nodup) :
    ((FAzureKinectThread.InitPolling alloc created Device Instances).2.map
      (fun I => I.addr)).Nodup := by
  unfold FAzureKinectThread.InitPolling
  cases hf : Instances.find? (fun Instance => Instance.KinectDevice == Device) with
  | some I => exact h
  | none =>
    simp only [List.map_append, List.map_cons, List.map_nil]
    rw [List.nodup_append]
    refine ⟨h, by simp, ?_⟩
    intro a ha hb
    simp only [List.mem_singleton, FAzureKinectThread.ctor] at hb
    rw [hb] at ha
    exact hfresh _ ha

theorem Shutdown_sublist (Device : Option Nat) (Instances : List FAzureKinectThread) :
    List.Sublist (FAzureKinectThread.Shutdown Device Instances) Instances := by
  unfold FAzureKinectThread.Shutdown
  cases Instances.find? (fun Instance => Instance.KinectDevice == Device) with
  | some I => exact List.filter_sublist _
  | none => exact List.Sublist.refl _

theorem registryAfter_snoc (alloc : List Nat → Nat) (calls : List RegistryCall)
    (call : RegistryCall) :
    registryAfter alloc (calls ++ [call]) = call.apply alloc (registryAfter alloc calls) := by
  simp [registryAfter, List.foldl_append]

/-- Every reachable registry has no two entries for one device and no two entries at
one address. -/
theorem registryAfter_nodup {alloc : List Nat → Nat} (hfresh : ∀ live, alloc live ∉ live)
    (calls : List RegistryCall) :
    ((registryAfter alloc calls).map (fun I => I.KinectDevice)).Nodup ∧
    ((registryAfter alloc calls).map (fun I => I.addr)).Nodup := by
  induction calls using List.reverseRecOn with
  | nil => simp [registryAfter]
  | append_singleton calls call ih =>
    rw [registryAfter_snoc]
    cases call with
    | GetOrCreate created Device =>
      exact ⟨InitPolling_nodup_device alloc created Device ih.1,
        InitPolling_nodup_addr hfresh created Device ih.2⟩
    | Remove Device =>
      exact ⟨((Shutdown_sublist Device _).map _).nodup ih.1,
        ((Shutdown_sublist Device _).map _).nodup ih.2⟩

/-- A second `InitPolling` for the same device returns the worker of the first and
leaves the registry as the first left it. -/
theorem InitPolling_twice (alloc : List Nat → Nat) (created1 created2 Device : Option Nat)
    (Instances : List FAzureKinectThread) :
    FAzureKinectThread.InitPolling alloc created2 Device
        (FAzureKinectThread.InitPolling alloc created1 Device Instances).2 =
      FAzureKinectThread.InitPolling alloc created1 Device Instances := by
  cases hf : Instances.find? (fun Instance => Instance.KinectDevice == Device) with
  | some I =>
    have e : FAzureKinectThread.InitPolling alloc created1 Device Instances = (I.addr, Instances) := by
      simp [FAzureKinectThread.InitPolling, hf]
    rw [e]
    simp [FAzureKinectThread.InitPolling, hf]
  | none =>
    have e : FAzureKinectThread.InitPolling alloc created1 Device Instances =
        ((FAzureKinectThread.ctor (alloc (Instances.map (fun I => I.addr))) created1 Device).addr,
          Instances ++ [FAzureKinectThread.ctor (alloc (Instances.map (fun I => I.addr)))
            created1 Device]) := by
      simp [FAzureKinectThread.InitPolling, hf]
    rw [e]
    simp [FAzureKinectThread.InitPolling, List.find?_append, hf, FAzureKinectThread.ctor]

/-! ### One worker per device -/

theorem le_foldl_max (live : List Nat) :
    ∀ a : Nat, a ≤ live.foldl max a ∧ ∀ x, x ∈ live → x ≤ live.foldl max a := by
  induction live with
  | nil => intro a; simp
  | cons b l ih =>
    intro a
    obtain ⟨h1, h2⟩ := ih (max a b)
    refine ⟨Nat.le_trans (Nat.le_max_left a b) h1, ?_⟩
    intro x hx
    rcases List.mem_cons.mp hx with h | h
    · rw [h]; exact Nat.le_trans (Nat.le_max_right a b) h1
    · exact h2 x h

theorem nextAddress_fresh (live : List Nat) : nextAddress live ∉ live := by
  intro h
  have := (le_foldl_max live 0).2 _ h
  unfold nextAddress at this
  omega

/-- C5: in every registry reached from the empty one by `InitPolling` (GetOrCreate)
and `FAzureKinectThread::Shutdown` (Remove) calls, with an allocator that never
answers a live address, there is at most one entry per device; `InitPolling` called
twice with the same device returns the same worker both times, adds no second
entry and leaves exactly one entry for the device; called with two distinct
devices it returns two distinct workers. -/
theorem registry_one_worker_per_device (alloc : List Nat → Nat)
    (hfresh : ∀ live, alloc live ∉ live) (calls : List RegistryCall) :
    OneWorkerPerDevice (registryAfter alloc calls) ∧
    (∀ created1 created2 Device : Option Nat,
      (FAzureKinectThread.InitPolling alloc created2 Device
        (FAzureKinectThread.InitPolling alloc created1 Device (registryAfter alloc calls)).2).1 =
        (FAzureKinectThread.InitPolling alloc created1 Device (registryAfter alloc calls)).1 ∧
      (FAzureKinectThread.InitPolling alloc created2 Device
        (FAzureKinectThread.InitPolling alloc created1 Device (registryAfter alloc calls)).2).2 =
        (FAzureKinectThread.InitPolling alloc created1 Device (registryAfter alloc calls)).2 ∧
      ((FAzureKinectThread.InitPolling alloc created1 Device (registryAfter alloc calls)).2.filter
        (fun Instance => Instance.KinectDevice == Device)).length = 1) ∧
    (∀ created1 created2 Device1 Device2 : Option Nat, Device1 ≠ Device2 →
      (FAzureKinectThread.InitPolling alloc created1 Device1 (registryAfter alloc calls)).1 ≠
      (FAzureKinectThread.InitPolling alloc created2 Device2
        (FAzureKinectThread.InitPolling alloc created1 Device1 (registryAfter alloc calls)).2).1) := by
  have hinv := registryAfter_nodup hfresh calls
  refine ⟨oneWorker_of_nodup hinv.1, ?_, ?_⟩
  · intro created1 created2 Device
    rw [InitPolling_twice]
    refine ⟨rfl, rfl, ?_⟩
    have hle := oneWorker_of_nodup
      (InitPolling_nodup_device alloc created1 Device hinv.1) Device
    obtain ⟨⟨I, hI, _, hd⟩, _⟩ := InitPolling_mem alloc created1 Device (registryAfter alloc calls)
    have : I ∈ (FAzureKinectThread.InitPolling alloc created1 Device
        (registryAfter alloc calls)).2.filter (fun Instance => Instance.KinectDevice == Device) := by
      rw [List.mem_filter]; exact ⟨hI, by simpa using hd⟩
    have := List.length_pos_of_mem this
    omega
  · intro created1 created2 Device1 Device2 hne heq
    obtain ⟨⟨I1, hI1, ha1, hd1⟩, _⟩ :=
      InitPolling_mem alloc created1 Device1 (registryAfter alloc calls)
    obtain ⟨⟨I2, hI2, ha2, hd2⟩, hkeep⟩ := InitPolling_mem alloc created2 Device2
      (FAzureKinectThread.InitPolling alloc created1 Device1 (registryAfter alloc calls)).2
    have hnd := InitPolling_nodup_addr hfresh created2 Device2
      (InitPolling_nodup_addr hfresh created1 Device1 hinv.2)
    have : I1 = I2 := List.inj_on_of_nodup_map hnd (hkeep I1 hI1) hI2 (by rw [ha1, ha2, heq])
    apply hne
    rw [← hd1, ← hd2, this]

theorem registry_one_worker_per_device_witness :
    (∀ live, nextAddress live ∉ live) ∧
    registryAfter nextAddress
      [.GetOrCreate (some 9) (some 500), .GetOrCreate none (some 600), .Remove (some 500)] =
      [⟨2, none, 0, some 600⟩] ∧
    (FAzureKinectThread.InitPolling nextAddress (some 9) (some 700)
      (registryAfter nextAddress
        [.GetOrCreate (some 9) (some 500), .GetOrCreate none (some 600), .Remove (some 500)])).1 ≠
    (FAzureKinectThread.InitPolling nextAddress (some 9) (some 600)
      (FAzureKinectThread.InitPolling nextAddress (some 9) (some 700)
        (registryAfter nextAddress
          [.GetOrCreate (some 9) (some 500), .GetOrCreate none (some 600), .Remove (some 500)])).2).1 :=
  ⟨nextAddress_fresh, by decide,
    (registry_one_worker_per_device nextAddress nextAddress_fresh
      [.GetOrCreate (some 9) (some 500), .GetOrCreate none (some 600), .Remove (some 500)]).2.2
      (some 9) (some 9) (some 700) (some 600) (by decide)⟩

/-! ### `Shutdown` -/

theorem EnsureCompletion_addr (t : FAzureKinectThread) : t.EnsureCompletion.addr = t.addr := by
  unfold FAzureKinectThread.EnsureCompletion FAzureKinectThread.Stop
  cases t.KinectThread <;> rfl

/-- After `FAzureKinectThread::Shutdown(Device)` on a registry with at most one worker
per device, no worker for `Device` is left. -/
theorem thread_Shutdown_removes {Instances : List FAzureKinectThread} (this : Nat)
    (h : OneWorkerPerDevice Instances) :
    NoWorkerFor this (FAzureKinectThread.Shutdown (some this) Instances) := by
  unfold FAzureKinectThread.Shutdown
  cases hf : Instances.find? (fun Instance => Instance.KinectDevice == some this) with
  | none => exact find?_device_none hf
  | some I =>
    obtain ⟨hI, hd⟩ := find?_device_some hf
    intro J hJ hJd
    rw [List.mem_filter] at hJ
    have : J = I := List.inj_on_of_nodup_map (nodup_of_oneWorker h) hJ.1 hI (by rw [hJd, hd])
    rw [this, EnsureCompletion_addr] at hJ
    simp at hJ

theorem thread_Shutdown_absent {Instances : List FAzureKinectThread} {this : Nat}
    (h : NoWorkerFor this Instances) :
    FAzureKinectThread.Shutdown (some this) Instances = Instances := by
  unfold FAzureKinectThread.Shutdown
  cases hf : Instances.find? (fun Instance => Instance.KinectDevice == some this) with
  | none => rfl
  | some I =>
    obtain ⟨hI, hd⟩ := find?_device_some hf
    exact absurd hd (h I hI)

theorem thread_Shutdown_oneWorker (Device : Option Nat) {Instances : List FAzureKinectThread}
    (h : OneWorkerPerDevice Instances) :
    OneWorkerPerDevice (FAzureKinectThread.Shutdown Device Instances) :=
  oneWorker_of_nodup (((Shutdown_sublist Device Instances).map _).nodup (nodup_of_oneWorker h))

theorem RemoveTicker_twice (Handle : Nat) (t : FTicker) :
    (t.RemoveTicker Handle).RemoveTicker Handle = t.RemoveTicker Handle := by
  simp [FTicker.RemoveTicker, List.filter_filter]

/-- The controller and the world that `Shutdown` leaves. -/
theorem Shutdown_eq (this : Nat) (dev : AzureKinectDevice) (w : World) :
    Shutdown this dev w =
      ({ dev with bIsInitialized := false, Thread := none, Bodies := [],
                  NativeBodyTracker := none, NativeKinectDevice := none },
       { Instances := if dev.Thread.isSome then
            FAzureKinectThread.Shutdown (some this) w.Instances else w.Instances
         CoreTicker := w.CoreTicker.RemoveTicker dev.TickHandle }) := by
  cases hT : dev.Thread <;> cases hB : dev.NativeBodyTracker <;>
    cases hK : dev.NativeKinectDevice <;> simp [Shutdown, hT, hB, hK]

/-- C3: for a controller in any state of its life, after `Shutdown()` the controller
is not initialized, the registry holds no worker for it, the body array is empty,
the tracker and capability handles and the worker pointer are null; a second
`Shutdown()` changes neither the controller nor the registry and ticker. -/
theorem shutdown_releases_and_is_idempotent (this : Nat) (dev : AzureKinectDevice) (w : World)
    (h : Lifecycle this dev w) :
    IsInitialized (Shutdown this dev w).1 = false ∧
    NoWorkerFor this (Shutdown this dev w).2.Instances ∧
    (Shutdown this dev w).1.Bodies = [] ∧
    (Shutdown this dev w).1.NativeBodyTracker = none ∧
    (Shutdown this dev w).1.NativeKinectDevice = none ∧
    (Shutdown this dev w).1.Thread = none ∧
    Shutdown this (Shutdown this dev w).1 (Shutdown this dev w).2 = Shutdown this dev w ∧
    Lifecycle this (Shutdown this dev w).1 (Shutdown this dev w).2 := by
  have hno : NoWorkerFor this (Shutdown this dev w).2.Instances := by
    rw [Shutdown_eq]
    cases hT : dev.Thread with
    | none => simpa using h.worker_known hT
    | some p => simpa using thread_Shutdown_removes this h.one_worker
  have hone : OneWorkerPerDevice (Shutdown this dev w).2.Instances := by
    rw [Shutdown_eq]
    cases hT : dev.Thread with
    | none => simpa using h.one_worker
    | some p => simpa using thread_Shutdown_oneWorker (some this) h.one_worker
  refine ⟨?_, hno, ?_, ?_, ?_, ?_, ?_, ⟨hone, fun _ => hno, ?_⟩⟩
  · rw [Shutdown_eq]; rfl
  · rw [Shutdown_eq]
  · rw [Shutdown_eq]
  · rw [Shutdown_eq]
  · rw [Shutdown_eq]
  · rw [Shutdown_eq this (Shutdown this dev w).1]
    rw [Shutdown_eq this dev w]
    simp [RemoveTicker_twice]
  · intro hinit
    rw [Shutdown_eq] at hinit
    cases hinit

theorem lifecycle_started : Lifecycle 500 startedDevice startedWorld :=
  ⟨oneWorker_of_nodup (by decide), fun h => absurd h (by decide), fun _ => ⟨rfl, rfl, rfl, rfl⟩⟩

theorem lifecycle_fresh : Lifecycle 500 freshDevice emptyWorld :=
  ⟨oneWorker_of_nodup (by decide), fun _ _ hI => absurd hI (List.not_mem_nil _),
    fun h => absurd h (by decide)⟩

theorem shutdown_releases_and_is_idempotent_witness :
    Lifecycle 500 startedDevice startedWorld ∧
    startedWorld.Instances = [⟨1, some 9, 0, some 500⟩] ∧
    (Shutdown 500 startedDevice startedWorld).2.Instances = [] ∧
    Shutdown 500 (Shutdown 500 startedDevice startedWorld).1
      (Shutdown 500 startedDevice startedWorld).2 = Shutdown 500 startedDevice startedWorld ∧
    Lifecycle 500 freshDevice emptyWorld ∧
    (Shutdown 500 freshDevice emptyWorld).1.NativeKinectDevice = none :=
  ⟨lifecycle_started, by decide, by decide,
    (shutdown_releases_and_is_idempotent 500 startedDevice startedWorld lifecycle_started).2.2.2.2.2.2.1,
    lifecycle_fresh,
    (shutdown_releases_and_is_idempotent 500 freshDevice emptyWorld lifecycle_fresh).2.2.2.2.1⟩

/-! ### Failed `Initialize` and the life cycle -/

/-- A failed `Initialize` changes nothing but the capability handle. -/
theorem initialize_failed {native : NativeInit} {engine : EngineInit} {DepthMode WiredSyncMode : Nat}
    {DepthDelayOffColorUsec : Int} {this : Nat} {dev : AzureKinectDevice} {w : World}
    (h : (Initialize native engine DepthMode WiredSyncMode DepthDelayOffColorUsec this dev w).ret
      = false) :
    (Initialize native engine DepthMode WiredSyncMode DepthDelayOffColorUsec this dev w).world = w ∧
    (Initialize native engine DepthMode WiredSyncMode DepthDelayOffColorUsec this dev w).dev =
      { dev with NativeKinectDevice :=
        (Initialize native engine DepthMode WiredSyncMode DepthDelayOffColorUsec this dev w
          ).dev.NativeKinectDevice } ∧
    (native.device_open dev.DeviceId = none →
      (Initialize native engine DepthMode WiredSyncMode DepthDelayOffColorUsec this dev w).dev = dev) ∧
    (∀ handle, native.device_open dev.DeviceId = some handle →
      ∃ cameras imu,
        (Initialize native engine DepthMode WiredSyncMode DepthDelayOffColorUsec this dev w
          ).dev.NativeKinectDevice = some (k4a_device.mk handle cameras imu)) := by
  rcases initialize_cases native engine DepthMode WiredSyncMode DepthDelayOffColorUsec this dev w
    with ⟨ho, hr⟩ | ⟨handle, ho, ⟨_, hr⟩ | ⟨_, _, hr⟩ | ⟨_, _, _, hr⟩ | ⟨c, t, _, _, _, _, ht, _, _⟩⟩
  · rw [hr]
    refine ⟨rfl, rfl, fun _ => rfl, ?_⟩
    intro handle hh
    rw [ho] at hh; cases hh
  · rw [hr]
    refine ⟨rfl, rfl, ?_, ?_⟩
    · intro hh; rw [ho] at hh; cases hh
    · intro handle' hh; rw [ho] at hh; cases hh; exact ⟨_, _, rfl⟩
  · rw [hr]
    refine ⟨rfl, rfl, ?_, ?_⟩
    · intro hh; rw [ho] at hh; cases hh
    · intro handle' hh; rw [ho] at hh; cases hh; exact ⟨_, _, rfl⟩
  · rw [hr]
    refine ⟨rfl, rfl, ?_, ?_⟩
    · intro hh; rw [ho] at hh; cases hh
    · intro handle' hh; rw [ho] at hh; cases hh; exact ⟨_, _, rfl⟩
  · rw [ht] at h; cases h

/-- `Initialize` returns false exactly when a step of its native sequence throws. -/
theorem initialize_ret_false_of_fails {native : NativeInit} (engine : EngineInit)
    {DepthMode WiredSyncMode : Nat} {DepthDelayOffColorUsec : Int} (this : Nat)
    {dev : AzureKinectDevice} (w : World)
    (hfail : NativeSequenceFails native DepthMode WiredSyncMode DepthDelayOffColorUsec dev.DeviceId) :
    (Initialize native engine DepthMode WiredSyncMode DepthDelayOffColorUsec this dev w).ret
      = false := by
  rcases initialize_cases native engine DepthMode WiredSyncMode DepthDelayOffColorUsec this dev w
    with ⟨_, hr⟩ | ⟨handle, ho, ⟨_, hr⟩ | ⟨_, _, hr⟩ | ⟨_, _, _, hr⟩ |
      ⟨c, t, h1, h2, h3, h4, _, _, _⟩⟩
  · rw [hr]
  · rw [hr]
  · rw [hr]
  · rw [hr]
  · exfalso
    rcases hfail with hf | ⟨_, hf | hf | hf | ⟨c', hc, hf⟩⟩
    · rw [ho] at hf; cases hf
    · simp only [deviceConfigOf] at hf; rw [h1] at hf; cases hf
    · rw [h2] at hf; cases hf
    · rw [h3] at hf; cases hf
    · rw [h3] at hc; cases hc; rw [h4] at hf; cases hf

/-- C4, as the code has it: for a controller that is not initialized, if any step of
the native sequence of `Initialize` throws, `Initialize` returns false, the
controller stays not initialized, the thread registry and the ticker are left as
they were (no worker and no tick callback is registered), and the tracker handle,
the worker pointer, the tick handle and the slots are left as they were. The
capability handle is left as it was when the open itself threw; when a later step
threw, the controller holds the newly opened capability, still open. -/
theorem initialize_failure_keeps_opened_capability (native : NativeInit) (engine : EngineInit)
    (DepthMode WiredSyncMode : Nat) (DepthDelayOffColorUsec : Int) (this : Nat)
    (dev : AzureKinectDevice) (w : World) (hnot : dev.bIsInitialized = false)
    (hfail : NativeSequenceFails native DepthMode WiredSyncMode DepthDelayOffColorUsec dev.DeviceId) :
    (Initialize native engine DepthMode WiredSyncMode DepthDelayOffColorUsec this dev w).ret
      = false ∧
    IsInitialized
      (Initialize native engine DepthMode WiredSyncMode DepthDelayOffColorUsec this dev w).dev
      = false ∧
    (Initialize native engine DepthMode WiredSyncMode DepthDelayOffColorUsec this dev w).world = w ∧
    (NoWorkerFor this w.Instances → NoWorkerFor this
      (Initialize native engine DepthMode WiredSyncMode DepthDelayOffColorUsec this dev w
        ).world.Instances) ∧
    (NoTickerFor this w.CoreTicker → NoTickerFor this
      (Initialize native engine DepthMode WiredSyncMode DepthDelayOffColorUsec this dev w
        ).world.CoreTicker) ∧
    (Initialize native engine DepthMode WiredSyncMode DepthDelayOffColorUsec this dev w
      ).dev.NativeBodyTracker = dev.NativeBodyTracker ∧
    (Initialize native engine DepthMode WiredSyncMode DepthDelayOffColorUsec this dev w
      ).dev.Thread = dev.Thread ∧
    (Initialize native engine DepthMode WiredSyncMode DepthDelayOffColorUsec this dev w
      ).dev.TickHandle = dev.TickHandle ∧
    (Initialize native engine DepthMode WiredSyncMode DepthDelayOffColorUsec this dev w
      ).dev.Bodies = dev.Bodies ∧
    (native.device_open dev.DeviceId = none →
      (Initialize native engine DepthMode WiredSyncMode DepthDelayOffColorUsec this dev w
        ).dev.NativeKinectDevice = dev.NativeKinectDevice) ∧
    (∀ handle, native.device_open dev.DeviceId = some handle →
      ∃ cameras imu,
        (Initialize native engine DepthMode WiredSyncMode DepthDelayOffColorUsec this dev w
          ).dev.NativeKinectDevice = some (k4a_device.mk handle cameras imu)) := by
  have hret := initialize_ret_false_of_fails engine this w hfail
  obtain ⟨hw, hd, hopen, hlater⟩ := initialize_failed hret
  refine ⟨hret, ?_, hw, ?_, ?_, ?_, ?_, ?_, ?_, ?_, hlater⟩
  · rw [hd]; exact hnot
  · rw [hw]; exact id
  · rw [hw]; exact id
  · rw [hd]
  · rw [hd]
  · rw [hd]
  · rw [hd]
  · intro ho; rw [hopen ho]

theorem initialize_failure_keeps_opened_capability_witness :
    freshDevice.bIsInitialized = false ∧
    NativeSequenceFails nativeImuFails 1 0 0 freshDevice.DeviceId ∧
    (Initialize nativeImuFails engineOk 1 0 0 500 freshDevice emptyWorld).ret = false ∧
    (Initialize nativeImuFails engineOk 1 0 0 500 freshDevice emptyWorld).world = emptyWorld :=
  ⟨rfl, Or.inr ⟨rfl, Or.inr (Or.inl rfl)⟩,
    (initialize_failure_keeps_opened_capability nativeImuFails engineOk 1 0 0 500 freshDevice
      emptyWorld rfl (Or.inr ⟨rfl, Or.inr (Or.inl rfl)⟩)).1,
    (initialize_failure_keeps_opened_capability nativeImuFails engineOk 1 0 0 500 freshDevice
      emptyWorld rfl (Or.inr ⟨rfl, Or.inr (Or.inl rfl)⟩)).2.2.1⟩

/-- C4 as stated fails: on a controller fresh from its constructor, with an empty
registry and ticker, `start_imu` throws after a successful open and camera start;
`Initialize` returns false and the controller is not initialized, yet the
capability handle is not null: the device is left open with its cameras started. -/
theorem initialize_failure_leaves_capability_open :
    Released freshDevice ∧
    NativeSequenceFails nativeImuFails 1 0 0 freshDevice.DeviceId ∧
    (Initialize nativeImuFails engineOk 1 0 0 500 freshDevice emptyWorld).ret = false ∧
    IsInitialized (Initialize nativeImuFails engineOk 1 0 0 500 freshDevice emptyWorld).dev
      = false ∧
    (Initialize nativeImuFails engineOk 1 0 0 500 freshDevice emptyWorld).dev.NativeKinectDevice =
      some (k4a_device.mk 1 true false) ∧
    (Initialize nativeImuFails engineOk 1 0 0 500 freshDevice emptyWorld).dev.NativeKinectDevice ≠
      none :=
  ⟨⟨rfl, rfl, rfl, rfl, rfl⟩, Or.inr ⟨rfl, Or.inr (Or.inl rfl)⟩, rfl, rfl, rfl, by decide⟩

/-- The constructor leaves a released controller, at home in any world whose
registry has at most one worker per device and none for it. -/
theorem lifecycle_ctor (this : Nat) (Id TimeOut : Int) (Accelerometer Gyroscope : FVector)
    (Temperature : float) (w : World) (h1 : OneWorkerPerDevice w.Instances)
    (h2 : NoWorkerFor this w.Instances) :
    Released (AzureKinectDevice.ctor Id TimeOut Accelerometer Gyroscope Temperature) ∧
    Lifecycle this (AzureKinectDevice.ctor Id TimeOut Accelerometer Gyroscope Temperature) w :=
  ⟨⟨rfl, rfl, rfl, rfl, rfl⟩, h1, fun _ => h2, fun h => by cases h⟩

/-- `Initialize`, failed or not, keeps the controller in its life cycle. -/
theorem lifecycle_Initialize (native : NativeInit) (engine : EngineInit)
    (DepthMode WiredSyncMode : Nat) (DepthDelayOffColorUsec : Int) {this : Nat}
    {dev : AzureKinectDevice} {w : World} (h : Lifecycle this dev w) :
    Lifecycle this
      (Initialize native engine DepthMode WiredSyncMode DepthDelayOffColorUsec this dev w).dev
      (Initialize native engine DepthMode WiredSyncMode DepthDelayOffColorUsec this dev w).world := by
  cases hret : (Initialize native engine DepthMode WiredSyncMode DepthDelayOffColorUsec this dev w).ret
  · obtain ⟨hw, hd, _, _⟩ := initialize_failed hret
    rw [hw]
    refine ⟨h.one_worker, ?_, ?_⟩
    · intro hT; rw [hd] at hT; exact h.worker_known hT
    · intro hi
      rw [hd] at hi
      obtain ⟨r1, r2, r3, r4⟩ := h.ready_if_initialized hi
      rcases initialize_cases native engine DepthMode WiredSyncMode DepthDelayOffColorUsec this dev w
        with ⟨_, hr⟩ | ⟨handle, _, ⟨_, hr⟩ | ⟨_, _, hr⟩ | ⟨_, _, _, hr⟩ |
          ⟨c, t, _, _, _, _, ht, _, _⟩⟩
      · rw [hr]; exact ⟨r1, r2, r3, r4⟩
      · rw [hr]; exact ⟨r1, rfl, r3, r4⟩
      · rw [hr]; exact ⟨r1, rfl, r3, r4⟩
      · rw [hr]; exact ⟨r1, rfl, r3, r4⟩
      · rw [ht] at hret; cases hret
  · refine ⟨?_, ?_, fun _ => initialize_ready hret⟩
    · rcases initialize_cases native engine DepthMode WiredSyncMode DepthDelayOffColorUsec this dev w
        with ⟨_, hr⟩ | ⟨handle, _, ⟨_, hr⟩ | ⟨_, _, hr⟩ | ⟨_, _, _, hr⟩ |
          ⟨c, t, _, _, _, _, _, _, hw⟩⟩
      · rw [hr] at hret; cases hret
      · rw [hr] at hret; cases hret
      · rw [hr] at hret; cases hret
      · rw [hr] at hret; cases hret
      · rw [hw]
        exact oneWorker_of_nodup (InitPolling_nodup_device _ _ _ (nodup_of_oneWorker h.one_worker))
    · intro hT
      rcases initialize_cases native engine DepthMode WiredSyncMode DepthDelayOffColorUsec this dev w
        with ⟨_, hr⟩ | ⟨handle, _, ⟨_, hr⟩ | ⟨_, _, hr⟩ | ⟨_, _, _, hr⟩ |
          ⟨c, t, _, _, _, _, _, hd, _⟩⟩
      · rw [hr] at hret; cases hret
      · rw [hr] at hret; cases hret
      · rw [hr] at hret; cases hret
      · rw [hr] at hret; cases hret
      · rw [hd] at hT; cases hT

/-- A capture cycle keeps the controller in its life cycle and never indexes out of
range in it. -/
theorem lifecycle_capture (env : NativeCycle) {this : Nat} {dev : AzureKinectDevice} {w : World}
    (h : Lifecycle this dev w) :
    Lifecycle this (CaptureBodyTrackingFrame env dev).dev w ∧
    (CaptureBodyTrackingFrame env dev).exit = .returned := by
  cases hi : dev.bIsInitialized
  · have hg : ¬ (dev.bIsInitialized = true ∧ dev.NativeKinectDevice.isSome = true ∧
        dev.NativeBodyTracker.isSome = true) := by rw [hi]; simp
    rw [capture_guarded env dev hg]
    exact ⟨h, rfl⟩
  · have hr := h.ready_if_initialized hi
    refine ⟨⟨h.one_worker, ?_, fun _ => capture_ready_preserved env hr⟩,
      (capture_in_range env (fun _ _ _ => hr.2.2.2 : SlotsMatch dev)).1⟩
    intro hT
    apply h.worker_known
    rcases cycle_cases env with ht | hx | ⟨bodyFrame, hp⟩
    · rw [(capture_timesOut dev ht).2.1] at hT; exact hT
    · rw [(capture_raises hr hx).2.2.2.1] at hT; exact hT
    · have C := capture_post hr hp
      rcases Nat.lt_or_ge (CaptureBodyTrackingFrame env dev).i
          (min bodyFrame.get_num_bodies MaxBodies) with hlt | hge
      · rw [(C.dev_stopped hlt).1] at hT; exact hT
      · rw [(C.dev_done (Nat.le_antisymm C.i_le hge)).1] at hT
        have e : (imuAfter env dev).Thread = dev.Thread := by
          unfold imuAfter readImu; cases env.get_imu_sample <;> rfl
        rw [← e]; exact hT

/-! ### The worker loop -/

theorem wrapInt32_of_lt {x : Int} (h0 : 0 ≤ x) (h1 : x < 2 ^ 31) : wrapInt32 x = x := by
  unfold wrapInt32
  have h2 : (x + 2 ^ 31) % 2 ^ 32 = x + 2 ^ 31 := Int.emod_eq_of_lt (by omega) (by omega)
  rw [h2]; omega

theorem Stop_iterate_frame (k : Nat) (t : FAzureKinectThread) :
    (FAzureKinectThread.Stop^[k] t).addr = t.addr ∧
    (FAzureKinectThread.Stop^[k] t).KinectThread = t.KinectThread ∧
    (FAzureKinectThread.Stop^[k] t).KinectDevice = t.KinectDevice := by
  induction k with
  | zero => exact ⟨rfl, rfl, rfl⟩
  | succ k ih => rw [Function.iterate_succ_apply']; exact ih

theorem Stop_iterate_counter (t : FAzureKinectThread) (h : t.StopThreadCounter = 0) :
    ∀ k : Nat, k < 2 ^ 31 → (FAzureKinectThread.Stop^[k] t).StopThreadCounter = (k : Int) := by
  intro k
  induction k with
  | zero => intro _; simpa using h
  | succ k ih =>
    intro hk
    rw [Function.iterate_succ_apply']
    show wrapInt32 ((FAzureKinectThread.Stop^[k] t).StopThreadCounter + 1) = _
    rw [ih (by omega), wrapInt32_of_lt (by omega) (by push_cast; omega)]
    push_cast; rfl

/-- With the stop counter nonzero the loop starts no cycle and `Run` returns 0. -/
theorem runLoop_stopped (turns : List Turn) {r : RunResult} (h : r.thread.StopThreadCounter ≠ 0) :
    runLoop turns r = { r with code := some 0 } := by
  cases turns with
  | nil => simp [runLoop, h]
  | cons turn rest => simp [runLoop, h]

/-- Every cycle the loop starts is started with the counter read as zero, and each
started cycle is counted. -/
theorem runLoop_observed (turns : List Turn) :
    ∀ r : RunResult, (∀ c, c ∈ r.observed → c = 0) → r.observed.length = r.cycles →
      (∀ c, c ∈ (runLoop turns r).observed → c = 0) ∧
      (runLoop turns r).observed.length = (runLoop turns r).cycles := by
  induction turns with
  | nil =>
    intro r h1 h2
    unfold runLoop
    split <;> exact ⟨h1, h2⟩
  | cons turn rest ih =>
    intro r h1 h2
    unfold runLoop
    split
    · rename_i hz
      have hz' : r.thread.StopThreadCounter = 0 := by simpa using hz
      have h1' : ∀ c, c ∈ r.observed ++ [r.thread.StopThreadCounter] → c = 0 := by
        intro c hc
        rcases List.mem_append.mp hc with hc | hc
        · exact h1 c hc
        · rw [List.mem_singleton] at hc; rw [hc, hz']
      have h2' : (r.observed ++ [r.thread.StopThreadCounter]).length = r.cycles + 1 := by
        simp [h2]
      simp only
      split
      · exact ⟨h1', h2'⟩
      · exact ih _ h1' h2'
    · exact ⟨h1, h2⟩

/-- Turns without a `Stop()` call keep the loop going. -/
theorem runLoop_quiet (quiet : List Turn) (rest : List Turn) :
    ∀ r : RunResult, r.thread.StopThreadCounter = 0 → SlotsMatch r.dev → Quiet quiet →
      ∃ r1 : RunResult, runLoop (quiet ++ rest) r = runLoop rest r1 ∧
        r1.thread = r.thread ∧ r1.code = r.code ∧ r1.cycles = r.cycles + quiet.length ∧
        SlotsMatch r1.dev := by
  induction quiet with
  | nil => intro r _ hs _; exact ⟨r, rfl, rfl, rfl, rfl, hs⟩
  | cons turn quiet ih =>
    intro r hz hs hq
    have hturn : turn.stops = 0 := hq turn (by simp)
    have hexit := (capture_in_range turn.env hs).1
    obtain ⟨r1, e, a, b, c, d⟩ := ih
      { r with cycles := r.cycles + 1, observed := r.observed ++ [r.thread.StopThreadCounter],
               dev := (CaptureBodyTrackingFrame turn.env r.dev).dev }
      hz (capture_slotsMatch turn.env hs) (fun t ht => hq t (by simp [ht]))
    refine ⟨r1, ?_, a, b, by rw [c]; simp; omega, d⟩
    rw [← e]
    simp only [List.cons_append]
    rw [runLoop]
    simp only [hz, hexit, hturn, beq_self_eq_true, if_true, Function.iterate_zero, id]

/-- A turn in which `Stop()` is called is the last one. -/
theorem runLoop_stop_turn (turn : Turn) (rest : List Turn) {r : RunResult}
    (hz : r.thread.StopThreadCounter = 0) (hs : SlotsMatch r.dev)
    (h1 : 1 ≤ turn.stops) (h2 : turn.stops < 2 ^ 31) :
    (runLoop (turn :: rest) r).code = some 0 ∧ (runLoop (turn :: rest) r).cycles = r.cycles + 1 := by
  have hexit := (capture_in_range turn.env hs).1
  have hc := Stop_iterate_counter r.thread hz turn.stops h2
  rw [runLoop]
  simp only [hz, hexit, beq_self_eq_true, if_true]
  rw [runLoop_stopped]
  · exact ⟨rfl, rfl⟩
  · show (FAzureKinectThread.Stop^[turn.stops] r.thread).StopThreadCounter ≠ 0
    rw [hc]; omega

/-- C7: the worker loop is cooperative. `Stop()` only increments the counter and
leaves the thread handle alone (no wait), and `EnsureCompletion`, the only other
code that touches the counter, increments it once; after `k` calls of `Stop()`,
`1 ≤ k < 2^31`, from zero the counter is `k`, not zero. Every cycle `Run` starts is started with the counter
read as zero. If `Stop()` calls land during a cycle, after any number of cycles
without one, that cycle is the last and `Run` returns 0; if they land before `Run`
begins, `Run` makes no cycle and returns 0; with a null device pointer `Run` makes
no cycle and returns 1. -/
theorem worker_loop_is_cooperative :
    (∀ t : FAzureKinectThread,
      t.Stop.StopThreadCounter = wrapInt32 (t.StopThreadCounter + 1) ∧
      t.Stop.KinectThread = t.KinectThread ∧ t.Stop.KinectDevice = t.KinectDevice ∧
      t.Stop.addr = t.addr ∧
      t.EnsureCompletion.StopThreadCounter = wrapInt32 (t.StopThreadCounter + 1)) ∧
    (∀ (t : FAzureKinectThread) (k : Nat), t.StopThreadCounter = 0 → 1 ≤ k → k < 2 ^ 31 →
      (FAzureKinectThread.Stop^[k] t).StopThreadCounter = (k : Int) ∧
      (FAzureKinectThread.Stop^[k] t).StopThreadCounter ≠ 0) ∧
    (∀ (t : FAzureKinectThread) (dev : AzureKinectDevice) (turns : List Turn),
      (∀ c, c ∈ (t.Run dev turns).observed → c = 0) ∧
      (t.Run dev turns).observed.length = (t.Run dev turns).cycles) ∧
    (∀ (t : FAzureKinectThread) (dev : AzureKinectDevice) (quiet rest : List Turn) (turn : Turn),
      t.KinectDevice.isSome = true → t.StopThreadCounter = 0 → SlotsMatch dev → Quiet quiet →
      1 ≤ turn.stops → turn.stops < 2 ^ 31 →
      (t.Run dev (quiet ++ turn :: rest)).code = some 0 ∧
      (t.Run dev (quiet ++ turn :: rest)).cycles = quiet.length + 1) ∧
    (∀ (t : FAzureKinectThread) (dev : AzureKinectDevice) (turns : List Turn) (k : Nat),
      t.KinectDevice.isSome = true → t.StopThreadCounter = 0 → 1 ≤ k → k < 2 ^ 31 →
      ((FAzureKinectThread.Stop^[k] t).Run dev turns).code = some 0 ∧
      ((FAzureKinectThread.Stop^[k] t).Run dev turns).cycles = 0) ∧
    (∀ (t : FAzureKinectThread) (dev : AzureKinectDevice) (turns : List Turn),
      t.KinectDevice = none →
      (t.Run dev turns).code = some 1 ∧ (t.Run dev turns).cycles = 0) := by
  refine ⟨fun t => ⟨rfl, rfl, rfl, rfl, ?_⟩, ?_, ?_, ?_, ?_, ?_⟩
  · unfold FAzureKinectThread.EnsureCompletion FAzureKinectThread.Stop
    cases t.KinectThread <;> rfl
  · intro t k hz h1 h2
    have := Stop_iterate_counter t hz k h2
    exact ⟨this, by rw [this]; omega⟩
  · intro t dev turns
    unfold FAzureKinectThread.Run
    cases t.KinectDevice with
    | none => exact ⟨by simp, rfl⟩
    | some d => exact runLoop_observed turns _ (by simp) rfl
  · intro t dev quiet rest turn hd hz hs hq h1 h2
    obtain ⟨d, hd⟩ := Option.isSome_iff_exists.mp hd
    unfold FAzureKinectThread.Run
    rw [hd]
    show (runLoop (quiet ++ turn :: rest) _).code = some 0 ∧ _
    obtain ⟨r1, e, a, _, c, s⟩ := runLoop_quiet quiet (turn :: rest)
      { code := none, cycles := 0, observed := [], thread := t, dev := dev } hz hs hq
    rw [e]
    have := runLoop_stop_turn turn rest (by rw [a]; exact hz) s h1 h2
    rw [c] at this
    simpa using this
  · intro t dev turns k hd hz h1 h2
    obtain ⟨d, hd⟩ := Option.isSome_iff_exists.mp hd
    have hc := Stop_iterate_counter t hz k h2
    unfold FAzureKinectThread.Run
    rw [(Stop_iterate_frame k t).2.2, hd]
    show (runLoop turns _).code = some 0 ∧ _
    rw [runLoop_stopped turns (by show (FAzureKinectThread.Stop^[k] t).StopThreadCounter ≠ 0
                                  rw [hc]; omega)]
    exact ⟨rfl, rfl⟩
  · intro t dev turns hd
    unfold FAzureKinectThread.Run
    rw [hd]
    exact ⟨rfl, rfl⟩

theorem worker_loop_is_cooperative_witness :
    SlotsMatch startedDevice ∧ Quiet [turnWith 0, turnWith 0] ∧
    (sampleWorker.Run startedDevice ([turnWith 0, turnWith 0] ++ turnWith 2 :: [turnWith 0])).code
      = some 0 ∧
    (sampleWorker.Run startedDevice ([turnWith 0, turnWith 0] ++ turnWith 2 :: [turnWith 0])).cycles
      = 3 ∧
    ((FAzureKinectThread.Stop^[3] sampleWorker).Run startedDevice [turnWith 0]).cycles = 0 ∧
    (orphanWorker.Run startedDevice [turnWith 0]).code = some 1 :=
  ⟨fun _ _ _ => rfl, by unfold Quiet; decide,
    (worker_loop_is_cooperative.2.2.2.1 sampleWorker startedDevice [turnWith 0, turnWith 0]
      [turnWith 0] (turnWith 2) rfl rfl (fun _ _ _ => rfl) (by unfold Quiet; decide)
      (by decide) (by decide)).1,
    (worker_loop_is_cooperative.2.2.2.1 sampleWorker startedDevice [turnWith 0, turnWith 0]
      [turnWith 0] (turnWith 2) rfl rfl (fun _ _ _ => rfl) (by unfold Quiet; decide)
      (by decide) (by decide)).2,
    (worker_loop_is_cooperative.2.2.2.2.1 sampleWorker startedDevice [turnWith 0] 3 rfl rfl
      (by decide) (by decide)).2,
    (worker_loop_is_cooperative.2.2.2.2.2 orphanWorker startedDevice [turnWith 0] rfl).1⟩

end AzureKinect
